import Mathlib

/-!
# RTT-GUI window state machine (`src/rtgui/widgets/window.c`)

A shallow embedding of the client-side window life cycle: show, hide, move,
close, resize, the modal sub-protocol, keyboard dispatch and destruction, with
the clip regions of a window, the colour gradient of the title bar and the
clipped line functions of the client drawing context
(`src/rtgui/dc_client.c`).  State is passed explicitly in a `World`; the
server, the event pool and the nested application loop are the environment.

Modelling choices:
* flags and styles are records of booleans, one field per bit the code tests;
* every `RTGUI_CREATE_EVENT` may fail and every `rtgui_send_request_sync` may
  return any code: both are read from oracles carried by the state;
* the counters `win_cnt`, `ref_cnt` and `_ref_count` are unsigned machine
  integers whose width `bits` is a parameter (their declarations are absent);
* a failed `RT_ASSERT`, a call through a null pointer and a division by zero
  do not return: functions that can reach one give an `Option`;
* functions of the repository that are absent from the sources (widget.c,
  app.c, region.c, the macros of the headers) are modelled from the spec and
  marked so;
* rectangle coordinates are unbounded integers (the sums of the code are taken
  not to overflow); a region is its bounding rectangle and an optional
  rectangle list, read as the set of points `x1 <= x < x2`, `y1 <= y < y2` of
  its rectangles;
* the drawing functions return the list of driver calls they make.
-/

namespace RTGUI

/-! ## Constants of absent headers -/

/-- RT-Thread kernel result code `RT_EOK` (rtdef.h). -/
def RT_EOK : Int := 0

/-- RT-Thread kernel result code `RT_ENOMEM` (rtdef.h). -/
def RT_ENOMEM : Int := 5

/-- Modelled from the spec: `RTGUI_MODAL_OK` of the absent `rtgui_modal_code_t`
enumeration; only its identity is used. -/
def RTGUI_MODAL_OK : Int := 0

/-- Modelled from the spec: `RTGUI_MODAL_CANCEL` of the absent
`rtgui_modal_code_t` enumeration, the "cancel result" of a modal loop; only its
identity is used. -/
def RTGUI_MODAL_CANCEL : Int := 1

/-! ## Data model -/

/-- The type `rtgui_rect_t`: corners `(x1, y1)` and `(x2, y2)`. -/
structure rtgui_rect where
  x1 : Int
  y1 : Int
  x2 : Int
  y2 : Int
deriving DecidableEq, Repr

/-- The type `rtgui_region_t`: the bounding rectangle `extents` and the
rectangle list `data`; `data` is null (`none`) for a region of one rectangle,
which then is `extents`. -/
structure rtgui_region where
  extents : rtgui_rect
  data : Option (List rtgui_rect)
deriving DecidableEq, Repr

/-- The bits of `win->flag` (`RTGUI_WIN_FLAG_*`); `RTGUI_WIN_FLAG_INIT` is the
value with every bit clear. -/
structure win_flag where
  CONNECTED : Bool
  CLOSED : Bool
  MODAL : Bool
  ACTIVATE : Bool
  IN_MODAL : Bool
  HANDLE_KEY : Bool
  CB_PRESSED : Bool
deriving DecidableEq, Repr

/-- The bits of `win->style` (`RTGUI_WIN_STYLE_*`) that window.c tests. -/
structure win_style where
  NO_BORDER : Bool
  NO_TITLE : Bool
  CLOSEBOX : Bool
  DESTROY_ON_CLOSE : Bool
deriving DecidableEq, Repr

/-- The title decoration `win->_title`, a widget of its own: its extent, its
`RTGUI_WIDGET_FLAG_SHOWN` bit and its clip region. -/
structure rtgui_title where
  extent : rtgui_rect
  SHOWN : Bool
  clip : rtgui_region
deriving DecidableEq, Repr

/-- A widget on the chain the keyboard dispatch walks (`win->focused`, then
`wgt->parent` until null): either a widget below the window, given by its
event handler `EVENT_HANDLER(wgt)` (`none`: null, else the value the handler
returns for the key event; the handler is taken not to write the window), or
the window's own widget, whose event handler is `_win_event_handler`. -/
inductive key_target where
  | widget (handler : Option Bool)
  | window
deriving DecidableEq, Repr

/-- The fields of `rtgui_win_t` that the life-cycle functions read or write.
`SHOWN` is the `RTGUI_WIDGET_FLAG_SHOWN` bit of the window's own widget and
`extent` that widget's extent.  `wid` stands for the address of the window.
`on_close` is the installed close callback, represented by the value it
returns when called (`none`: no callback installed); the callback is taken not
to write the window or the application.  `deleted` records that the instance
has been freed.  `clip` is the clip region of the window's own widget,
`outer_clip` the region that includes the decoration; `children` stands for
the list of child widgets of the container; `on_activate` and `on_deactivate`
tell whether such a callback is installed (its result is discarded).  `on_key`
is the installed key callback, represented like `on_close` by the value it
returns (`none`: null).  `focus_path` is the parent chain of a focused widget
below the window: that widget first, then its ancestors. -/
structure rtgui_win where
  wid : Nat
  parent : Option Nat
  SHOWN : Bool
  extent : rtgui_rect
  flag : win_flag
  style : win_style
  outer_extent : rtgui_rect
  _title : Option rtgui_title
  focused : Option Nat
  on_close : Option Bool
  _ref_count : Nat
  _magic : Bool
  deleted : Bool
  clip : rtgui_region
  outer_clip : rtgui_region
  children : List Nat
  on_activate : Bool
  on_deactivate : Bool
  on_key : Option Bool
  focus_path : List key_target
deriving DecidableEq, Repr

/-- The fields of the owning application object `win->app` used by window.c:
the nested-run counter, the window count, the `RTGUI_APP_FLAG_KEEP` bit, the
main window and the last exit code. -/
structure rtgui_app where
  ref_cnt : Nat
  win_cnt : Nat
  KEEP : Bool
  main_win : Option Nat
  exit_code : Int
deriving DecidableEq, Repr

/-- Requests a client sends to the server with `rtgui_send_request_sync`, or,
for WIN_RESIZE, with `rtgui_send_request`. -/
inductive rtgui_request where
  | WIN_CREATE
  | WIN_DESTROY
  | WIN_SHOW
  | WIN_HIDE
  | WIN_MOVE (x y : Int)
  | WIN_MODAL_ENTER
  | WIN_RESIZE (rect : rtgui_rect)
deriving DecidableEq, Repr

/-- Calls that leave the window module, in the order they happen:
`update_title` is `rtgui_widget_update(TO_WIDGET(win->_title))`, the repaint
request for the title decoration; `on_activate`, `on_deactivate` and `on_key`
are calls of the installed callbacks; `child_update_clip` is
`rtgui_widget_update_clip` on a child widget. -/
inductive Effect where
  | request (r : rtgui_request)
  | app_exit (code : Int)
  | focus
  | delete_title
  | delete
  | update_title
  | on_activate
  | on_deactivate
  | child_update_clip (child : Nat)
  | on_key
deriving DecidableEq, Repr

/-- Events handled by `_win_event_handler` that drive the life cycle. -/
inductive rtgui_evt where
  | WIN_SHOW
  | WIN_HIDE
  | WIN_CLOSE
  | WIN_MOVE (x y : Int)
  | WIN_ACTIVATE
  | WIN_DEACTIVATE
  | CLIP_INFO
  | KBD
deriving DecidableEq, Repr

/-- The state the window functions run in: the window, its application, the
environment and the trace of outgoing calls.  `pool i` tells whether the
`i`-th `RTGUI_CREATE_EVENT` obtains an event record, `server i` is the result
code of the `i`-th `rtgui_send_request_sync`; `allocs` and `sent` count the
calls made so far.  `queue` holds the events the application's event loop will
deliver to the window, in order. -/
structure World where
  win : rtgui_win
  app : rtgui_app
  pool : Nat → Bool
  allocs : Nat
  server : Nat → Int
  sent : Nat
  queue : List rtgui_evt
  log : List Effect

/-! ## Environment primitives -/

/-- The macro `RTGUI_CREATE_EVENT(evt, ...)`: `true` when `evt` is not null. -/
def RTGUI_CREATE_EVENT (w : World) : Bool × World :=
  (w.pool w.allocs, { w with allocs := w.allocs + 1 })

/-- The call `rtgui_send_request_sync(evt)`: the request goes out and the
server's result code comes back. -/
def rtgui_send_request_sync (r : rtgui_request) (w : World) : Int × World :=
  (w.server w.sent, { w with sent := w.sent + 1, log := w.log ++ [Effect.request r] })

/-- Modelled from the spec: `rtgui_send_request(evt)` (absent), the
"fire-and-forget" send: the request goes out and no result is waited for. -/
def rtgui_send_request (r : rtgui_request) (w : World) : World :=
  { w with log := w.log ++ [Effect.request r] }

/-- The upcoming `i`-th request of `w` gets an event record and is accepted
by the server (result `RT_EOK`). -/
def accepts (w : World) (i : Nat) : Prop :=
  w.pool (w.allocs + i) = true ∧ w.server (w.sent + i) = 0

instance (w : World) (i : Nat) : Decidable (accepts w i) := by
  unfold accepts; exact inferInstance

/-- Increment of a `bits`-wide unsigned counter (`win_cnt++`, `ref_cnt + 1`). -/
def cnt_inc (bits c : Nat) : Nat := (c + 1) % 2 ^ bits

/-- Decrement of a `bits`-wide unsigned counter (`win_cnt--`). -/
def cnt_dec (bits c : Nat) : Nat := (c + 2 ^ bits - 1) % 2 ^ bits

/-- Modelled from the spec: `rtgui_widget_show` (widget.c, absent) marks the
widget visible; here for the window's own widget. -/
def rtgui_widget_show (w : World) : World :=
  { w with win.SHOWN := true }

/-- Modelled from the spec: `rtgui_widget_hide` (widget.c, absent) clears the
local visibility flag; here for the window's own widget. -/
def rtgui_widget_hide (w : World) : World :=
  { w with win.SHOWN := false }

/-- Modelled from the spec: `rtgui_widget_focus(TO_WIDGET(win))` (widget.c,
absent): focus is assigned to the window itself. -/
def rtgui_widget_focus (w : World) : World :=
  { w with win.focused := some w.win.wid, log := w.log ++ [Effect.focus] }

/-- Modelled from the spec: `rtgui_app_exit(app, code)` (app.c, absent) asks
the application to unwind one nested loop level: the nested-run counter is
lowered by one and the exit code recorded.  The window functions only ever
pass `win->app` or `rtgui_app_self()`; window code runs in the task of the
owning application (the constructor records `win->app = rtgui_app_self()`), so
both denote `w.app`. -/
def rtgui_app_exit (bits : Nat) (code : Int) (w : World) : World :=
  { w with app.ref_cnt := cnt_dec bits w.app.ref_cnt,
           app.exit_code := code,
           log := w.log ++ [Effect.app_exit code] }

/-- Modelled from the spec: entering `rtgui_app_run` (app.c, absent) raises
the application's nested-run counter by one. -/
def rtgui_app_run_enter (bits : Nat) (w : World) : World :=
  { w with app.ref_cnt := cnt_inc bits w.app.ref_cnt }

/-- Modelled from the spec: `rtgui_rect_inflate(rect, d)` (absent) expands the
rectangle by `d` on all four sides. -/
def rtgui_rect_inflate (r : rtgui_rect) (d : Int) : rtgui_rect :=
  { x1 := r.x1 - d, y1 := r.y1 - d, x2 := r.x2 + d, y2 := r.y2 + d }

/-- Modelled from the spec: `rtgui_rect_move(rect, dx, dy)` (absent) translates
the rectangle; `rtgui_widget_move_to_logic` does the same to a widget extent. -/
def rtgui_rect_move (r : rtgui_rect) (dx dy : Int) : rtgui_rect :=
  { x1 := r.x1 + dx, y1 := r.y1 + dy, x2 := r.x2 + dx, y2 := r.y2 + dy }

/-! ## Regions -/

/-- The point `(x, y)` lies in the rectangle: `x1 <= x < x2` and
`y1 <= y < y2`, the convention of the clip tests of dc_client.c. -/
def rect_contains (r : rtgui_rect) (x y : Int) : Bool :=
  decide (r.x1 ≤ x) && decide (x < r.x2) && decide (r.y1 ≤ y) && decide (y < r.y2)

/-- The rectangle holds at least one point. -/
def rect_nonempty (r : rtgui_rect) : Bool :=
  decide (r.x1 < r.x2) && decide (r.y1 < r.y2)

/-- The point lies in one of the rectangles. -/
def rects_contain : List rtgui_rect → Int → Int → Bool
  | [], _, _ => false
  | r :: l, x, y => rect_contains r x y || rects_contain l x y

/-- The rectangles of a region: `extents` alone when `data` is null. -/
def region_rects (R : rtgui_region) : List rtgui_rect :=
  match R.data with
  | none => [R.extents]
  | some l => l

/-- The region read as a point set. -/
def region_contains (R : rtgui_region) (x y : Int) : Bool :=
  rects_contain (region_rects R) x y

/-- The bounding box of two rectangles. -/
def rect_bound (a b : rtgui_rect) : rtgui_rect :=
  { x1 := min a.x1 b.x1, y1 := min a.y1 b.y1, x2 := max a.x2 b.x2, y2 := max a.y2 b.y2 }

/-- The common part of two rectangles. -/
def rect_intersect (a b : rtgui_rect) : rtgui_rect :=
  { x1 := max a.x1 b.x1, y1 := max a.y1 b.y1, x2 := min a.x2 b.x2, y2 := min a.y2 b.y2 }

/-- Modelled from the spec: the region (region.c, absent) made of the given
rectangles: "an empty region has an empty rectangle list and zero-area
extents", one rectangle gives the flat region with null `data`, more give the
list with its bounding box as `extents`. -/
def region_of_rects : List rtgui_rect → rtgui_region
  | [] => { extents := { x1 := 0, y1 := 0, x2 := 0, y2 := 0 }, data := some [] }
  | [r] => { extents := r, data := none }
  | r :: l => { extents := l.foldl rect_bound r, data := some (r :: l) }

/-- Modelled from the spec: `rtgui_region_init_with_extents` (region.c, absent)
makes the region of the single rectangle `rect`. -/
def rtgui_region_init_with_extents (rect : rtgui_rect) : rtgui_region :=
  { extents := rect, data := none }

/-- Modelled from the spec: `rtgui_region_copy(dest, src)` (region.c, absent)
makes `dest` the same region as `src`. -/
def rtgui_region_copy (_dest src : rtgui_region) : rtgui_region := src

/-- Modelled from the spec: the rectangle list of an intersection (region.c,
absent): the non-empty parts of the rectangles that lie in `r`. -/
def intersect_rects : List rtgui_rect → rtgui_rect → List rtgui_rect
  | [], _ => []
  | a :: l, r =>
    if rect_nonempty (rect_intersect a r) then rect_intersect a r :: intersect_rects l r
    else intersect_rects l r

/-- Modelled from the spec: `rtgui_region_intersect_rect(dest, reg, rect)`
(region.c, absent) makes `dest` the region of the points of `reg` that lie in
`rect`. -/
def rtgui_region_intersect_rect (reg : rtgui_region) (rect : rtgui_rect) : rtgui_region :=
  region_of_rects (intersect_rects (region_rects reg) rect)

/-- Modelled from the spec: the rectangle list of a subtraction (region.c,
absent) for one rectangle: `a` without `r`, in up to four non-overlapping
pieces, the band above `r`, the parts left and right of `r` and the band
below `r`. -/
def rect_subtract (a r : rtgui_rect) : List rtgui_rect :=
  let top := min a.y2 (max a.y1 r.y1)
  let bot := max top (min a.y2 r.y2)
  [ ({ x1 := a.x1, y1 := a.y1, x2 := a.x2, y2 := top } : rtgui_rect),
    { x1 := a.x1, y1 := top, x2 := min a.x2 (max a.x1 r.x1), y2 := bot },
    { x1 := max a.x1 (min a.x2 r.x2), y1 := top, x2 := a.x2, y2 := bot },
    { x1 := a.x1, y1 := bot, x2 := a.x2, y2 := a.y2 } ].filter rect_nonempty

/-- Modelled from the spec: the rectangle list of a subtraction (region.c,
absent): the parts of the rectangles that lie outside `r`. -/
def subtract_rects : List rtgui_rect → rtgui_rect → List rtgui_rect
  | [], _ => []
  | a :: l, r => rect_subtract a r ++ subtract_rects l r

/-- Modelled from the spec: `rtgui_region_subtract_rect(dest, reg, rect)`
(region.c, absent) makes `dest` the region of the points of `reg` that do not
lie in `rect`. -/
def rtgui_region_subtract_rect (reg : rtgui_region) (rect : rtgui_rect) : rtgui_region :=
  region_of_rects (subtract_rects (region_rects reg) rect)

/-- Modelled from the spec: `rtgui_region_num_rects` (region.c, absent), the
number of rectangles of the region. -/
def rtgui_region_num_rects (R : rtgui_region) : Nat := (region_rects R).length

/-- Modelled from the spec: `rtgui_region_is_flat` (region.c, absent), "a
region with a single rectangle (flat) is its own extents": `true` stands for
the result `RT_EOK`. -/
def rtgui_region_is_flat (R : rtgui_region) : Bool := rtgui_region_num_rects R == 1

/-- Modelled from the spec: `rtgui_widget_update(TO_WIDGET(win->_title))`
(widget.c, absent) requests a repaint of the title decoration. -/
def rtgui_widget_update_title (w : World) : World :=
  { w with log := w.log ++ [Effect.update_title] }

/-! ## Window functions of window.c -/

/-- The function `_win_constructor` (window.c lines 66-96): the window-specific
fields of a new instance.  `default_style` stands for `RTGUI_WIN_STYLE_DEFAULT`
(absent header). -/
def _win_constructor (default_style : win_style) (w : World) : World :=
  { w with
    win.parent := none,
    win.style := default_style,
    win.flag :=
      { CONNECTED := false, CLOSED := false, MODAL := false, ACTIVATE := false,
        IN_MODAL := false, HANDLE_KEY := false, CB_PRESSED := false },
    win._title := none,
    win.focused := none,
    win.on_activate := false,
    win.on_deactivate := false,
    win.on_close := none,
    win.on_key := none,
    win.SHOWN := false }

/-- The function `_win_destructor` (lines 98-120): tells the server about the destruction when
the window is connected, giving up when that fails, and then releases the
title decoration. -/
def _win_destructor (w : World) : World :=
  let release (v : World) : World :=
    if v.win._title.isSome then { v with log := v.log ++ [Effect.delete_title] } else v
  if w.win.flag.CONNECTED then
    let a := RTGUI_CREATE_EVENT w
    if !a.1 then a.2
    else
      let s := rtgui_send_request_sync rtgui_request.WIN_DESTROY a.2
      if s.1 ≠ 0 then s.2
      else release s.2
  else release w

/-- Modelled from the spec: `DELETE_INSTANCE(win)` (absent macro) runs the
destructor and frees the instance. -/
def DELETE_INSTANCE (w : World) : World :=
  let d := _win_destructor w
  { d with win.deleted := true, log := d.log ++ [Effect.delete] }

/-- Modelled from the spec: `DELETE_WIN_INSTANCE(win)` (absent macro): "the
window is destroyed immediately". -/
def DELETE_WIN_INSTANCE (w : World) : World :=
  DELETE_INSTANCE w

/-- The function `_win_create_in_server` (lines 122-147). -/
def _win_create_in_server (w : World) : Int × World :=
  if w.win.flag.CONNECTED then (RT_EOK, w)
  else
    let a := RTGUI_CREATE_EVENT w
    if !a.1 then (-RT_ENOMEM, a.2)
    else
      let s := rtgui_send_request_sync rtgui_request.WIN_CREATE a.2
      if s.1 ≠ 0 then (s.1, s.2)
      else (s.1, { s.2 with win.flag.CONNECTED := true })

/-- The function `rtgui_win_hide` (lines 526-542). -/
def rtgui_win_hide (w : World) : World :=
  if !w.win.SHOWN || !w.win.flag.CONNECTED then w
  else
    let a := RTGUI_CREATE_EVENT w
    if !a.1 then a.2
    else
      let s := rtgui_send_request_sync rtgui_request.WIN_HIDE a.2
      if s.1 ≠ 0 then s.2
      else
        let h := rtgui_widget_hide s.2
        { h with win.flag.ACTIVATE := false }

/-- The `while` loop of `rtgui_win_end_modal` (lines 512-519), entered with `cnt` exits done.
`none` is the failed `RT_ASSERT(cnt < 1000)`.  The loop stops by itself within
`1000 - cnt` rounds, which is the fuel it is started with. -/
def end_modal_loop (bits : Nat) : Nat → Nat → World → Option World
  | 0, _, _ => none
  | fuel + 1, cnt, w =>
    if w.win._ref_count < w.app.ref_cnt then
      let w1 := rtgui_app_exit bits 0 w
      if cnt + 1 ≥ 1000 then none
      else end_modal_loop bits fuel (cnt + 1) w1
    else some w

/-- The function `rtgui_win_end_modal` (lines 507-523); `none` when the
assertion fails. -/
def rtgui_win_end_modal (bits : Nat) (modal : Int) (w : World) : Option World :=
  if !w.win.flag.MODAL then some w
  else
    match end_modal_loop bits 1000 0 w with
    | none => none
    | some w1 =>
      let w2 := rtgui_app_exit bits modal w1
      some { w2 with win.flag.MODAL := false }

/-- The function `rtgui_win_enter_modal` (lines 466-494).  `rtgui_app_run` (app.c, absent) is
the nested run of the application's event loop, a parameter: it gives the exit
code and the state when the nested loop returns, `none` when it does not. -/
def rtgui_win_enter_modal (bits : Nat) (rtgui_app_run : World → Option (Int × World))
    (w : World) : Option (Int × World) :=
  let a := RTGUI_CREATE_EVENT w
  if !a.1 then some (-RT_ENOMEM, a.2)
  else
    let s := rtgui_send_request_sync rtgui_request.WIN_MODAL_ENTER a.2
    if s.1 ≠ 0 then some (s.1, s.2)
    else
      let w1 : World :=
        { s.2 with win.flag.MODAL := true,
                   win._ref_count := cnt_inc bits s.2.app.ref_cnt }
      match rtgui_app_run w1 with
      | none => none
      | some r =>
        let w2 : World := { r.2 with win.flag.MODAL := false }
        some (s.1, rtgui_win_hide w2)

/-- The second half of the body of `_win_do_show` (lines 165-192), run once the window is
registered: local show, the `WIN_SHOW` request with its roll-back, focus, main
window and the modal sub-protocol. -/
def _win_do_show_notify (bits : Nat) (rtgui_app_run : World → Option (Int × World))
    (v : World) : Option (Int × World) :=
  let w1 := rtgui_widget_show v
  let a := RTGUI_CREATE_EVENT w1
  if !a.1 then some (-RT_ENOMEM, a.2)
  else
    let s := rtgui_send_request_sync rtgui_request.WIN_SHOW a.2
    if s.1 ≠ 0 then some (s.1, rtgui_widget_hide s.2)
    else
      let w2 := if s.2.win.focused.isNone then rtgui_widget_focus s.2 else s.2
      let w3 : World :=
        if w2.app.main_win.isNone then { w2 with app.main_win := some w2.win.wid } else w2
      if w3.win.flag.MODAL then rtgui_win_enter_modal bits rtgui_app_run w3
      else some (s.1, w3)

/-- The function `_win_do_show` (lines 149-196), for a non-null window. -/
def _win_do_show (bits : Nat) (rtgui_app_run : World → Option (Int × World))
    (w : World) : Option (Int × World) :=
  let w0 : World := { w with win.flag.CLOSED := false, win.flag.CB_PRESSED := false }
  if !w0.win.flag.CONNECTED then
    let c := _win_create_in_server w0
    if c.1 ≠ 0 then some (c.1, c.2)
    else _win_do_show_notify bits rtgui_app_run c.2
  else _win_do_show_notify bits rtgui_app_run w0

/-- The function `rtgui_win_show` (lines 497-504).  The private field `_do_show` is only ever
set by the constructor, to `_win_do_show`. -/
def rtgui_win_show (bits : Nat) (rtgui_app_run : World → Option (Int × World))
    (is_modal : Bool) (w : World) : Option (Int × World) :=
  let w1 : World := { w with win.SHOWN := true, win._magic := true }
  let w2 : World := if is_modal then { w1 with win.flag.MODAL := true } else w1
  _win_do_show bits rtgui_app_run w2

/-- The last steps of `_win_do_close` (lines 214-219, after the modal unwind):
`win_cnt--`, then `rtgui_app_exit(rtgui_app_self(), 0)` when no window is left
and the application is not kept, then the destruction of a destroy-on-close
window. -/
def _win_do_close_finish (bits : Nat) (w3 : World) : World :=
  let w4 : World := { w3 with app.win_cnt := cnt_dec bits w3.app.win_cnt }
  let w5 := if w4.app.win_cnt = 0 && !w4.app.KEEP then rtgui_app_exit bits 0 w4 else w4
  if w5.win.style.DESTROY_ON_CLOSE then DELETE_WIN_INSTANCE w5 else w5

/-- The function `_win_do_close` (lines 198-224); the result is `done`.  `none`
when the assertion of `rtgui_win_end_modal` fails. -/
def _win_do_close (bits : Nat) (force : Bool) (w : World) : Option (Bool × World) :=
  let done : Bool := match w.win.on_close with
    | some d => d
    | none => true
  if w.win.on_close.isSome && (!done && !force) then some (done, w)
  else
    let w1 := rtgui_win_hide w
    let w2 : World := { w1 with win.flag.CLOSED := true }
    match (if w2.win.flag.MODAL then rtgui_win_end_modal bits RTGUI_MODAL_CANCEL w2
           else some w2) with
    | none => none
    | some w3 => some (done, _win_do_close_finish bits w3)

/-- The function `rtgui_win_uninit` (lines 447-463); `none` when the assertion of
`rtgui_win_end_modal` fails. -/
def rtgui_win_uninit (bits : Nat) (w : World) : Option World :=
  let w0 : World := { w with win._magic := false }
  let finish (v : World) : Option World :=
    if v.win.flag.MODAL then
      rtgui_win_end_modal bits RTGUI_MODAL_CANCEL { v with win.style.DESTROY_ON_CLOSE := true }
    else some (DELETE_INSTANCE v)
  if !w0.win.flag.CLOSED then
    match _win_do_close bits true w0 with
    | none => none
    | some r =>
      if r.2.win.style.DESTROY_ON_CLOSE then some r.2
      else finish r.2
  else finish w0

/-- The function `rtgui_win_init` (lines 391-444).  `border` and `height` stand for
`TITLE_BORDER_SIZE` and `TITLE_HEIGHT` (absent header), `title_ok` tells
whether `CREATE_INSTANCE(title, ...)` yields a title decoration.
`rtgui_widget_set_rect` (widget.c, absent) is taken to set the extent of the
widget and to reset its clip to that rectangle. -/
def rtgui_win_init (bits : Nat) (border height : Int) (parent : Option Nat)
    (title_ok : Bool) (rect : rtgui_rect) (style : win_style) (w : World) : Int × World :=
  let w1 : World :=
    { w with win.extent := rect, win.clip := rtgui_region_init_with_extents rect,
             win.parent := parent, win.style := style }
  let finish (v : World) : Int × World :=
    let c := _win_create_in_server v
    if c.1 ≠ 0 then (c.1, c.2)
    else (c.1, { c.2 with app.win_cnt := cnt_inc bits c.2.app.win_cnt })
  if !style.NO_BORDER || !style.NO_TITLE then
    if !title_ok then (-RT_ENOMEM, w1)
    else
      let f1 := if !style.NO_BORDER then rtgui_rect_inflate rect border else rect
      let fixed : rtgui_rect := if !style.NO_TITLE then { f1 with y1 := f1.y1 - height } else f1
      let title_clip :=
        rtgui_region_subtract_rect (rtgui_region_init_with_extents fixed) w1.win.extent
      finish { w1 with win._title := some { extent := fixed, SHOWN := true, clip := title_clip },
                       win.outer_clip := rtgui_region_init_with_extents fixed,
                       win.outer_extent := fixed }
  else finish { w1 with win.outer_clip := rtgui_region_init_with_extents rect,
                        win.outer_extent := rect }

/-- The function `rtgui_win_move` (lines 565-601), for a non-null window. -/
def rtgui_win_move (x y : Int) (w : World) : World :=
  let dx : Int := match w.win._title with
    | some t => x - t.extent.x1
    | none => x - w.win.extent.x1
  let dy : Int := match w.win._title with
    | some t => y - t.extent.y1
    | none => y - w.win.extent.y1
  let w1 : World :=
    { w with
      win._title := w.win._title.map (fun t => { t with extent := rtgui_rect_move t.extent dx dy }),
      win.extent := rtgui_rect_move w.win.extent dx dy,
      win.outer_extent := rtgui_rect_move w.win.outer_extent dx dy }
  if w1.win.flag.CONNECTED then
    let h := rtgui_widget_hide w1
    let a := RTGUI_CREATE_EVENT h
    if !a.1 then a.2
    else
      let s := rtgui_send_request_sync (rtgui_request.WIN_MOVE x y) a.2
      if s.1 ≠ 0 then s.2
      else rtgui_widget_show s.2
  else rtgui_widget_show w1

/-- The rectangle a move is measured against: the extent of the title
decoration when the window has one, else the extent of the window. -/
def move_ref (win : rtgui_win) : rtgui_rect :=
  match win._title with
  | some t => t.extent
  | none => win.extent

/-- The function `rtgui_win_update_clip` (lines 604-638), for a non-null window.
The region functions return a status that the function does not look at.  The
clip of every child is then recomputed by `rtgui_widget_update_clip`
(widget.c, absent). -/
def rtgui_win_update_clip (w : World) : World :=
  if w.win.flag.CLOSED then w
  else
    let w1 : World :=
      match w.win._title with
      | some t =>
        let c := rtgui_region_copy t.clip w.win.outer_clip
        let t1 : rtgui_title :=
          { t with extent := w.win.outer_extent,
                   clip := rtgui_region_subtract_rect c w.win.extent }
        { w with win._title := some t1,
                 win.clip := rtgui_region_intersect_rect w.win.outer_clip w.win.extent }
      | none =>
        { w with win.extent := w.win.outer_extent,
                 win.clip := rtgui_region_copy w.win.clip w.win.outer_clip }
    { w1 with log := w1.log ++ w1.win.children.map Effect.child_update_clip }

/-- The function `rtgui_win_set_rect` (lines 641-656), for a non-null window and
rectangle. -/
def rtgui_win_set_rect (rect : rtgui_rect) (w : World) : World :=
  let w1 : World := { w with win.extent := rect }
  if w1.win.flag.CONNECTED then
    let a := RTGUI_CREATE_EVENT w1
    if a.1 then rtgui_send_request (rtgui_request.WIN_RESIZE rect) a.2
    else a.2
  else w1

/-- The call `win->on_key(TO_OBJECT(win), evt)`; the result is what the
callback returns.  `none` is the call through the null pointer, which does not
return. -/
def call_on_key (w : World) : Option (Bool × World) :=
  match w.win.on_key with
  | none => none
  | some d => some (d, { w with log := w.log ++ [Effect.on_key] })

/-- The KBD case of `_win_event_handler` in key handling mode (lines 365-369):
`else if (!win->on_key) done = win->on_key(TO_OBJECT(win), evt);`, with `done`
left at `RT_TRUE` otherwise. -/
def _win_kbd_handle_key (w : World) : Option (Bool × World) :=
  if w.win.on_key.isNone then call_on_key w
  else some (true, w)

/-- The chain of widgets the dispatch loop walks, from `win->focused` up the
`parent` pointers: nothing without a focused widget, the window alone when it
is focused itself (the window is a top-level widget), else `focus_path`. -/
def key_chain (win : rtgui_win) : List key_target :=
  match win.focused with
  | none => []
  | some f => if f = win.wid then [key_target.window] else win.focus_path

/-- The dispatch loop of the KBD case (lines 357-363) over the chain of
widgets, entered with the current `done`.  A widget without event handler is
passed over; the first handler that returns true ends the loop.  The handler
of the window's own widget is `_win_event_handler` again, which is then in key
handling mode (HANDLE_KEY was set before the loop). -/
def _win_kbd_dispatch : List key_target → Bool → World → Option (Bool × World)
  | [], done, w => some (done, w)
  | key_target.widget none :: rest, done, w => _win_kbd_dispatch rest done w
  | key_target.widget (some d) :: rest, _, w =>
    if d then some (true, w) else _win_kbd_dispatch rest false w
  | key_target.window :: rest, _, w =>
    match _win_kbd_handle_key w with
    | none => none
    | some r => if r.1 then some (true, r.2) else _win_kbd_dispatch rest false r.2

/-- The function `_win_event_handler` (lines 265-385) on the life-cycle,
activation, clip and keyboard events; the result is `done`, which all cases
but KBD leave at `RT_TRUE`.  `none` when the handler does not return: a failed
assertion, or a call through a null pointer. -/
def _win_event_handler (bits : Nat) (rtgui_app_run : World → Option (Int × World))
    (evt : rtgui_evt) (w : World) : Option (Bool × World) :=
  match evt with
  | rtgui_evt.WIN_SHOW =>
    match _win_do_show bits rtgui_app_run w with
    | none => none
    | some r => some (true, r.2)
  | rtgui_evt.WIN_HIDE => some (true, rtgui_win_hide w)
  | rtgui_evt.WIN_CLOSE =>
    match _win_do_close bits false w with
    | none => none
    | some r => some (true, r.2)
  | rtgui_evt.WIN_MOVE x y => some (true, rtgui_win_move x y w)
  | rtgui_evt.WIN_ACTIVATE =>
    if w.win.flag.IN_MODAL || !w.win.SHOWN then some (true, w)
    else
      let w1 : World := { w with win.flag.ACTIVATE := true }
      let w2 := if w1.win._title.isSome then rtgui_widget_update_title w1 else w1
      let w3 : World :=
        if w2.win.on_activate then { w2 with log := w2.log ++ [Effect.on_activate] } else w2
      some (true, w3)
  | rtgui_evt.WIN_DEACTIVATE =>
    let w1 : World := { w with win.flag.ACTIVATE := false }
    let w2 := if w1.win._title.isSome then rtgui_widget_update_title w1 else w1
    let w3 : World :=
      if w2.win.on_deactivate then { w2 with log := w2.log ++ [Effect.on_deactivate] } else w2
    some (true, w3)
  | rtgui_evt.CLIP_INFO => some (true, rtgui_win_update_clip w)
  | rtgui_evt.KBD =>
    if !w.win.flag.HANDLE_KEY then
      let w1 : World := { w with win.flag.HANDLE_KEY := true }
      match _win_kbd_dispatch (key_chain w1.win) true w1 with
      | none => none
      | some r => some (r.1, { r.2 with win.flag.HANDLE_KEY := false })
    else _win_kbd_handle_key w

/-- Modelled from the spec: the loop of `rtgui_app_run` (app.c, absent) at the
nesting level `cur`: while the nested-run counter has not fallen below `cur`,
the next event is taken from the queue and handed to the window's handler (a
freed window gets no event).  `none` when the loop does not return: a handler
does not return, or the queue runs dry first.  Each round takes one event, so
a fuel above the length of the queue is never used up. -/
def app_event_loop (handle : rtgui_evt → World → Option (Bool × World)) (cur : Nat) :
    Nat → World → Option (Int × World)
  | 0, _ => none
  | fuel + 1, w =>
    if cur ≤ w.app.ref_cnt then
      match w.queue with
      | [] => none
      | e :: es =>
        let w1 : World := { w with queue := es }
        if w1.win.deleted then app_event_loop handle cur fuel w1
        else
          match handle e w1 with
          | none => none
          | some r => app_event_loop handle cur fuel r.2
    else some (w.app.exit_code, w)

/-- Modelled from the spec: `rtgui_app_run` (app.c, absent), "a nested run of
the owning application's event loop until that reference count is restored":
the nested-run counter is raised by one and events are handled until it falls
below the raised value; the result is the exit code.  `depth` bounds how deep
modal loops nest inside the handlers. -/
def rtgui_app_run_model (bits : Nat) : Nat → World → Option (Int × World)
  | 0, _ => none
  | depth + 1, w =>
    let w1 := rtgui_app_run_enter bits w
    app_event_loop (_win_event_handler bits (rtgui_app_run_model bits depth))
      w1.app.ref_cnt (w1.queue.length + 1) w1

/-! ## Client drawing context of dc_client.c -/

/-- The fields of the widget that owns a client drawing context
(`rtgui_widget_t *owner`) that the line functions read: its extent, its clip
region and the foreground colour `gc.foreground`.  `visible` is the result of
`rtgui_dc_get_visible` (dc.c, absent) for the context. -/
structure rtgui_widget_t where
  extent : rtgui_rect
  clip : rtgui_region
  foreground : Nat
  visible : Bool
deriving DecidableEq, Repr

/-- Calls of the graphic driver `hw_driver->ops`, in device coordinates.  The
first argument of `draw_raw_hline` is the offset, in bytes, of the pointer it
receives from `line_data`. -/
inductive driver_call where
  | draw_hline (color : Nat) (x1 x2 y : Int)
  | draw_raw_hline (offset : Int) (x1 x2 y : Int)
deriving DecidableEq, Repr

/-- The macro `_int_swap(x, y)` (line 57): `x ^= y; y ^= x; x ^= y`; the result
is the pair of the new `x` and the new `y`.  `Int.xor` is the exclusive or of
the two's-complement bit patterns. -/
def _int_swap (x y : Int) : Int × Int :=
  let x1 := Int.xor x y
  let y1 := Int.xor y x1
  let x2 := Int.xor x1 y1
  (x2, y1)

/-- The conversion "logic to device" at the head of the line functions (lines
214-217 and 300-303): the device-space `x1`, `x2` (exchanged when out of
order) and `y`.  The sums are taken not to overflow. -/
def logic_to_device (owner : rtgui_widget_t) (x1 x2 y : Int) : Int × Int × Int :=
  let x1 := x1 + owner.extent.x1
  let x2 := x2 + owner.extent.x1
  let p := if x1 > x2 then _int_swap x1 x2 else (x1, x2)
  let y := y + owner.extent.y1
  (p.1, p.2, y)

/-- The branch of `rtgui_dc_client_draw_hline` for a clip with null `data` (lines
219-232), on device coordinates. -/
def draw_hline_flat (owner : rtgui_widget_t) (x1 x2 y : Int) : List driver_call :=
  let rect := owner.clip.extents
  if rect.y1 > y || rect.y2 ≤ y then []
  else if rect.x2 ≤ x1 || rect.x1 > x2 then []
  else
    let x1 := if rect.x1 > x1 then rect.x1 else x1
    let x2 := if rect.x2 < x2 then rect.x2 else x2
    [driver_call.draw_hline owner.foreground x1 x2 y]

/-- The loop of `rtgui_dc_client_draw_hline` over the rectangles of the clip
(lines 236-254), on device coordinates. -/
def draw_hline_loop (fg : Nat) (x1 x2 y : Int) : List rtgui_rect → List driver_call
  | [] => []
  | rect :: rest =>
    if rect.y1 > y || rect.y2 ≤ y then draw_hline_loop fg x1 x2 y rest
    else if rect.x2 ≤ x1 || rect.x1 > x2 then draw_hline_loop fg x1 x2 y rest
    else
      let draw_x1 := if rect.x1 > x1 then rect.x1 else x1
      let draw_x2 := if rect.x2 < x2 then rect.x2 else x2
      driver_call.draw_hline fg draw_x1 draw_x2 y :: draw_hline_loop fg x1 x2 y rest

/-- The function `rtgui_dc_client_draw_hline` (lines 202-256): the driver calls it
makes, in order.  `self` is `none` for a null context. -/
def rtgui_dc_client_draw_hline (self : Option rtgui_widget_t) (x1 x2 y : Int) :
    List driver_call :=
  match self with
  | none => []
  | some owner =>
    if !owner.visible then []
    else
      let d := logic_to_device owner x1 x2 y
      match owner.clip.data with
      | none => draw_hline_flat owner d.1 d.2.1 d.2.2
      | some l => draw_hline_loop owner.foreground d.1 d.2.1 d.2.2 l

/-- The flat branch of `rtgui_dc_client_blit_line` (lines 306-323), on device
coordinates; `bpp` stands for `_BIT2BYTE(hw_driver->bits_per_pixel)` (absent
macro), the bytes of one pixel. -/
def blit_line_flat (bpp : Int) (owner : rtgui_widget_t) (x1 x2 y : Int) : List driver_call :=
  let rect := owner.clip.extents
  if rect.y1 > y || rect.y2 ≤ y then []
  else if rect.x2 ≤ x1 || rect.x1 > x2 then []
  else
    let x1 := if rect.x1 > x1 then rect.x1 else x1
    let x2 := if rect.x2 < x2 then rect.x2 else x2
    let offset := owner.clip.extents.x1 - owner.extent.x1
    let offset := offset * bpp
    [driver_call.draw_raw_hline offset x1 x2 y]

/-- The loop branch of `rtgui_dc_client_blit_line` (lines 327-344) over the
rectangles of the clip, on device coordinates. -/
def blit_line_loop (bpp : Int) (x1 x2 y : Int) : List rtgui_rect → List driver_call
  | [] => []
  | rect :: rest =>
    if rect.y1 > y || rect.y2 ≤ y then blit_line_loop bpp x1 x2 y rest
    else if rect.x2 ≤ x1 || rect.x1 > x2 then blit_line_loop bpp x1 x2 y rest
    else
      let draw_x1 := if rect.x1 > x1 then rect.x1 else x1
      let draw_x2 := if rect.x2 < x2 then rect.x2 else x2
      driver_call.draw_raw_hline ((draw_x1 - x1) * bpp) draw_x1 draw_x2 y ::
        blit_line_loop bpp x1 x2 y rest

/-- The function `rtgui_dc_client_blit_line` (lines 287-347): the driver calls it
makes, in order. -/
def rtgui_dc_client_blit_line (bpp : Int) (self : Option rtgui_widget_t) (x1 x2 y : Int) :
    List driver_call :=
  match self with
  | none => []
  | some owner =>
    if !owner.visible then []
    else
      let d := logic_to_device owner x1 x2 y
      if rtgui_region_is_flat owner.clip then blit_line_flat bpp owner d.1 d.2.1 d.2.2
      else blit_line_loop bpp d.1 d.2.1 d.2.2 (region_rects owner.clip)

/-- The call the clipped horizontal line owes to the clip rectangle `R`, in the
words of the specification: none unless the device row `y` lies in `R` and the
span from `lo` to `hi` meets `R`, else the span from `max lo R.x1` to
`min hi R.x2`. -/
def hline_spec (fg : Nat) (lo hi y : Int) (R : rtgui_rect) : Option driver_call :=
  if R.y1 ≤ y ∧ y < R.y2 ∧ lo < R.x2 ∧ R.x1 ≤ hi then
    some (driver_call.draw_hline fg (max lo R.x1) (min hi R.x2) y)
  else none

/-! ## Title gradient of rtgui_theme_draw_win -/

/-- One round of the gradient loop: the column `index` passed to
`rtgui_dc_draw_vline` and the three channel arguments of `RTGUI_RGB` (absent
macro) of its foreground colour. -/
structure title_column where
  index : Nat
  red : Nat
  green : Nat
  blue : Nat
deriving DecidableEq, Repr

/-- The conversion of an `int` to `rt_uint16_t`. -/
def to_uint16 (z : Int) : Nat := (z % 2 ^ 16).toNat

/-- The `for` loop of the title gradient (lines 836-843) with the 16-bit
variables `index`, `r`, `g`, `b`, `delta`: the columns drawn, in order.  The
first argument is fuel; `none` when it runs out. -/
def title_gradient_loop (x2 : Int) (delta : Nat) :
    Nat → Nat → Nat → Nat → Nat → Option (List title_column)
  | 0, index, _, _, _ => if (index : Int) < x2 + 1 then none else some []
  | fuel + 1, index, r, g, b =>
    if (index : Int) < x2 + 1 then
      (title_gradient_loop x2 delta fuel ((index + 1) % 2 ^ 16) ((r + delta) % 2 ^ 16)
          ((g + delta) % 2 ^ 16) ((b + delta) % 2 ^ 16)).map
        (fun l => { index := index, red := r >>> 4, green := g >>> 4, blue := b >>> 4 } :: l)
    else some []

/-- The gradient block of `rtgui_theme_draw_win` (lines 822-845) for a window
with a title: `activate` is the ACTIVATE flag, `rect` the rectangle of the
title decoration after the border was taken off.  `none` when the block does
not return: the division by a zero width, or a loop that never ends.  The
16-bit `index` takes every value within `2 ^ 16` rounds, so a loop that has
not ended by then (the fuel) never does. -/
def rtgui_theme_draw_win_gradient (activate : Bool) (rect : rtgui_rect) :
    Option (List title_column) :=
  if rect.x2 - rect.x1 = 0 then none
  else
    let r : Nat := if activate then 10 <<< 4 else 128 <<< 4
    let g : Nat := if activate then 36 <<< 4 else 128 <<< 4
    let b : Nat := if activate then 106 <<< 4 else 128 <<< 4
    let delta : Nat :=
      if activate then to_uint16 (Int.tdiv (150 <<< 4 : Nat) (rect.x2 - rect.x1))
      else to_uint16 (Int.tdiv (64 <<< 4 : Nat) (rect.x2 - rect.x1))
    title_gradient_loop rect.x2 delta (2 ^ 16) (to_uint16 rect.x1) r g b

/-! ## Sequences of operations on one window -/

/-- The operations of the window state machine. -/
inductive win_op where
  | op_init (parent : Option Nat) (title_ok : Bool) (rect : rtgui_rect) (style : win_style)
  | op_show (is_modal : Bool)
  | op_hide
  | op_move (x y : Int)
  | op_close (force : Bool)
deriving DecidableEq, Repr

/-- One operation applied to the window; `none` when it does not return. -/
def apply_op (bits : Nat) (border height : Int)
    (rtgui_app_run : World → Option (Int × World)) (op : win_op) (w : World) : Option World :=
  match op with
  | win_op.op_init parent title_ok rect style =>
    some (rtgui_win_init bits border height parent title_ok rect style w).2
  | win_op.op_show is_modal =>
    match rtgui_win_show bits rtgui_app_run is_modal w with
    | none => none
    | some r => some r.2
  | win_op.op_hide => some (rtgui_win_hide w)
  | win_op.op_move x y => some (rtgui_win_move x y w)
  | win_op.op_close force =>
    match _win_do_close bits force w with
    | none => none
    | some r => some r.2

/-- A sequence of operations applied in order.  A freed window takes no further
operation. -/
def run_ops (bits : Nat) (border height : Int)
    (rtgui_app_run : World → Option (Int × World)) : List win_op → World → Option World
  | [], w => some w
  | op :: ops, w =>
    if w.win.deleted then some w
    else
      match apply_op bits border height rtgui_app_run op w with
      | none => none
      | some w1 => run_ops bits border height rtgui_app_run ops w1

/-- The state-machine property: a window that is `SHOWN` is `CONNECTED`. -/
def shown_connected (w : World) : Prop :=
  w.win.SHOWN = true → w.win.flag.CONNECTED = true

instance (w : World) : Decidable (shown_connected w) := by
  unfold shown_connected; exact inferInstance

/-- The guard under which an operation keeps `shown_connected`: a move is
applied to a `CONNECTED` window, a show to a `CONNECTED` window or with its
`WIN_CREATE` request accepted. -/
def op_guard (op : win_op) (w : World) : Bool :=
  match op with
  | win_op.op_move _ _ => w.win.flag.CONNECTED
  | win_op.op_show _ => w.win.flag.CONNECTED || decide (accepts w 0)
  | _ => true

/-- Every operation of the sequence meets its guard in the state it is
applied to. -/
def guarded (bits : Nat) (border height : Int)
    (rtgui_app_run : World → Option (Int × World)) : List win_op → World → Bool
  | [], _ => true
  | op :: ops, w =>
    w.win.deleted ||
    (op_guard op w &&
      match apply_op bits border height rtgui_app_run op w with
      | none => true
      | some w1 => guarded bits border height rtgui_app_run ops w1)

/-- The exit codes passed to `rtgui_app_exit`, in order. -/
def exits : List Effect → List Int
  | [] => []
  | Effect.app_exit c :: l => c :: exits l
  | _ :: l => exits l

/-! ## Sample states -/

/-- The rectangle (10,10)-(110,60). -/
def sample_rect : rtgui_rect := { x1 := 10, y1 := 10, x2 := 110, y2 := 60 }

/-- The flag value `RTGUI_WIN_FLAG_INIT`. -/
def flag_init : win_flag :=
  { CONNECTED := false, CLOSED := false, MODAL := false, ACTIVATE := false,
    IN_MODAL := false, HANDLE_KEY := false, CB_PRESSED := false }

/-- A style with border, title and close box. -/
def sample_style : win_style :=
  { NO_BORDER := false, NO_TITLE := false, CLOSEBOX := true, DESTROY_ON_CLOSE := false }

/-- The memory of a window instance before `_win_constructor` runs: the widget
constructor has left it SHOWN. -/
def blank_win : rtgui_win :=
  { wid := 7, parent := none, SHOWN := true, extent := sample_rect, flag := flag_init,
    style := sample_style, outer_extent := sample_rect, _title := none, focused := none,
    on_close := none, _ref_count := 0, _magic := false, deleted := false,
    clip := rtgui_region_init_with_extents sample_rect,
    outer_clip := rtgui_region_init_with_extents sample_rect,
    children := [], on_activate := false, on_deactivate := false, on_key := none,
    focus_path := [] }

/-- An application that runs its event loop once and has no window yet. -/
def idle_app : rtgui_app :=
  { ref_cnt := 1, win_cnt := 0, KEEP := false, main_win := none, exit_code := 0 }

/-- A freshly constructed window (not connected, not shown), with an event pool
that never runs dry and a server that answers the `i`-th request with
`reply i`. -/
def fresh_world (reply : Nat → Int) : World :=
  _win_constructor sample_style
    { win := blank_win, app := idle_app, pool := fun _ => true, allocs := 0,
      server := reply, sent := 0, queue := [], log := [] }

/-- A window that is initialised: connected, counted by its application, still
hidden. -/
def hidden_world (reply : Nat → Int) : World :=
  { fresh_world reply with win.flag.CONNECTED := true, app.win_cnt := 1 }

/-- A window that is connected and shown. -/
def shown_world (reply : Nat → Int) : World :=
  { hidden_world reply with win.SHOWN := true }

/-- A shown, connected window inside its own modal loop: `rtgui_win_enter_modal`
recorded `_ref_count = ref_cnt + 1` and set MODAL, and the nested run raised
the counter. -/
def modal_world : World :=
  rtgui_app_run_enter 16
    { shown_world (fun _ => 0) with
      win.flag.MODAL := true,
      win._ref_count := cnt_inc 16 (shown_world (fun _ => 0)).app.ref_cnt }

/-- A nested application loop that returns at once with exit code 0. -/
def idle_run : World → Option (Int × World) := fun w => some (0, w)

/-- A fresh window of an application that already has another window; the
event loop will deliver a move and then a close to it. -/
def sample_start : World :=
  { fresh_world (fun _ => 0) with
    app.win_cnt := 1,
    queue := [rtgui_evt.WIN_MOVE 5 5, rtgui_evt.WIN_CLOSE] }

/-- A life cycle: init, a modal show (whose nested loop handles the queued move
and close), then move, hide and a plain show. -/
def sample_ops : List win_op :=
  [win_op.op_init none true sample_rect sample_style, win_op.op_show true,
   win_op.op_move 3 4, win_op.op_hide, win_op.op_show false]

/-- The state `sample_ops` ends in from `sample_start`, with title border 1 and
title height 20. -/
def sample_final : World :=
  (run_ops 16 1 20 (rtgui_app_run_model 16 2) sample_ops sample_start).getD sample_start

/-- A window initialised with border and title (border 1, title height 20) on
a fresh application: connected, counted, still hidden. -/
def init_world : World :=
  (rtgui_win_init 16 1 20 none true sample_rect sample_style (fresh_world (fun _ => 0))).2

/-- The window of `init_world` after a plain show: shown, with its title
decoration, and with both activation callbacks installed. -/
def titled_world : World :=
  let v := ((rtgui_win_show 16 idle_run false init_world).map Prod.snd).getD init_world
  { v with win.on_activate := true, win.on_deactivate := true }

/-- The window of `titled_world`, active, after it was closed. -/
def closed_world : World :=
  ((_win_do_close 16 false { titled_world with win.flag.ACTIVATE := true }).map Prod.snd).getD
    titled_world

/-- The closed window after the server has shrunk its `outer_clip` to an empty
region. -/
def stale_world : World :=
  { closed_world with
    win.outer_clip := { extents := { x1 := 0, y1 := 0, x2 := 0, y2 := 0 }, data := some [] } }

/-- A visible widget with extent (0,0)-(100,50) whose clip is that one
rectangle, foreground colour 3. -/
def sample_owner : rtgui_widget_t :=
  { extent := { x1 := 0, y1 := 0, x2 := 100, y2 := 50 },
    clip := rtgui_region_init_with_extents { x1 := 0, y1 := 0, x2 := 100, y2 := 50 },
    foreground := 3, visible := true }

/-- A visible widget with extent (0,0)-(100,50) whose clip is the single
rectangle (10,0)-(100,50): its left part is covered. -/
def covered_owner : rtgui_widget_t :=
  { sample_owner with
    clip := rtgui_region_init_with_extents { x1 := 10, y1 := 0, x2 := 100, y2 := 50 } }

/-- A visible widget with extent (5,5)-(50,50) whose clip has the two
rectangles (10,10)-(20,20) and (30,10)-(40,20). -/
def split_owner : rtgui_widget_t :=
  { extent := { x1 := 5, y1 := 5, x2 := 50, y2 := 50 },
    clip := { extents := { x1 := 10, y1 := 10, x2 := 40, y2 := 20 },
              data := some [{ x1 := 10, y1 := 10, x2 := 20, y2 := 20 },
                            { x1 := 30, y1 := 10, x2 := 40, y2 := 20 }] },
    foreground := 3, visible := true }

/-- The window of `titled_world` with a server that rejects every request. -/
def rejecting_world : World :=
  { titled_world with server := fun _ => -1 }

/-- A window initialised with border and title in an application that already
has one other window. -/
def second_world : World :=
  (rtgui_win_init 16 1 20 none true sample_rect sample_style
    { fresh_world (fun _ => 0) with app.win_cnt := 1 }).2

/-- The rectangle (0,0)-(100,20): a title bar of width 100. -/
def title_rect : rtgui_rect := { x1 := 0, y1 := 0, x2 := 100, y2 := 20 }

/-- The connected, hidden window of `hidden_world` after a modal show,
`rtgui_win_show(win, RT_TRUE)`, whose WIN_SHOW request the server rejected (its
first answer is -1, every later one `RT_EOK`): the window is hidden again and
keeps the MODAL flag. -/
def stale_modal_world : World :=
  ((rtgui_win_show 16 idle_run true
      (hidden_world (fun i => if i = 0 then -1 else 0))).map Prod.snd).getD
    (hidden_world (fun i => if i = 0 then -1 else 0))

/-! ## Auxiliary lemmas -/

/-- A counter that is positive and in range is lowered by exactly one. -/
theorem cnt_dec_pos (bits c : Nat) (h0 : 0 < c) (h1 : c < 2 ^ bits) : cnt_dec bits c = c - 1 := by
  unfold cnt_dec
  have : c + 2 ^ bits - 1 = (c - 1) + 2 ^ bits := by omega
  rw [this, Nat.add_mod_right, Nat.mod_eq_of_lt (by omega)]

/-- The exit codes of a concatenated trace. -/
theorem exits_append (l1 l2 : List Effect) : exits (l1 ++ l2) = exits l1 ++ exits l2 := by
  induction l1 with
  | nil => rfl
  | cons a l ih => cases a <;> simp [exits, ih]

/-- The exit codes of a run of equal exits. -/
theorem exits_replicate (d : Nat) (c : Int) :
    exits (List.replicate d (Effect.app_exit c)) = List.replicate d c := by
  induction d with
  | zero => rfl
  | succ n ih => simp [List.replicate_succ, exits, ih]

/-- The unwind loop does not write the window. -/
theorem end_modal_loop_win (bits : Nat) : ∀ (fuel cnt : Nat) (w w' : World),
    end_modal_loop bits fuel cnt w = some w' → w'.win = w.win := by
  intro fuel
  induction fuel with
  | zero => intro cnt w w' h; simp [end_modal_loop] at h
  | succ n ih =>
    intro cnt w w' h
    unfold end_modal_loop at h
    split at h
    · split at h
      · simp at h
      · have := ih _ _ _ h
        simpa [rtgui_app_exit] using this
    · simp at h; rw [← h]

/-- The unwind loop performs `d = ref_cnt - _ref_count` exits with code 0 and
returns, as long as the round counter stays under 1000. -/
theorem end_modal_loop_spec (bits : Nat) : ∀ (d fuel cnt : Nat) (w : World),
    w.app.ref_cnt < 2 ^ bits → w.app.ref_cnt - w.win._ref_count = d → d < fuel →
    cnt + d < 1000 →
    ∃ w', end_modal_loop bits fuel cnt w = some w' ∧ w'.win = w.win ∧
      w'.app.ref_cnt = w.app.ref_cnt - d ∧ w'.app.win_cnt = w.app.win_cnt ∧
      w'.app.KEEP = w.app.KEEP ∧ w'.app.main_win = w.app.main_win ∧
      w'.log = w.log ++ List.replicate d (Effect.app_exit 0) ∧
      w'.pool = w.pool ∧ w'.allocs = w.allocs ∧ w'.server = w.server ∧ w'.sent = w.sent := by
  intro d
  induction d with
  | zero =>
    intro fuel cnt w _ hd hf _
    obtain ⟨f, rfl⟩ : ∃ f, fuel = f + 1 := ⟨fuel - 1, by omega⟩
    have : ¬ w.win._ref_count < w.app.ref_cnt := by omega
    exact ⟨w, by simp [end_modal_loop, this], rfl, by simp, rfl, rfl, rfl, by simp,
      rfl, rfl, rfl, rfl⟩
  | succ d ih =>
    intro fuel cnt w hr hd hf hc
    obtain ⟨f, rfl⟩ : ∃ f, fuel = f + 1 := ⟨fuel - 1, by omega⟩
    have hlt : w.win._ref_count < w.app.ref_cnt := by omega
    have hdec : cnt_dec bits w.app.ref_cnt = w.app.ref_cnt - 1 := cnt_dec_pos _ _ (by omega) hr
    have hcn : ¬ (cnt + 1 ≥ 1000) := by omega
    obtain ⟨w', h1, h2, h3, h4, h5, h6, h7, h8, h9, h10, h11⟩ :=
      ih f (cnt + 1) (rtgui_app_exit bits 0 w)
        (by simp [rtgui_app_exit, hdec]; omega)
        (by simp [rtgui_app_exit, hdec]; omega) (by omega) (by omega)
    refine ⟨w', ?_, ?_, ?_, ?_, ?_, ?_, ?_, ?_, ?_, ?_, ?_⟩
    · rw [end_modal_loop]; simp only [hlt, if_true, hcn, if_false]; exact h1
    · simpa [rtgui_app_exit] using h2
    · rw [h3]; simp [rtgui_app_exit, hdec]; omega
    · simpa [rtgui_app_exit] using h4
    · simpa [rtgui_app_exit] using h5
    · simpa [rtgui_app_exit] using h6
    · rw [h7]; simp [rtgui_app_exit, List.replicate_succ]
    · simpa [rtgui_app_exit] using h8
    · simpa [rtgui_app_exit] using h9
    · simpa [rtgui_app_exit] using h10
    · simpa [rtgui_app_exit] using h11

/-- On a MODAL window whose unwind needs fewer than 1000 rounds,
`rtgui_win_end_modal` returns: the loop's exits, one exit with the modal code,
MODAL cleared, nothing else written. -/
theorem rtgui_win_end_modal_spec (bits : Nat) (modal : Int) (w : World)
    (hm : w.win.flag.MODAL = true) (hr : w.app.ref_cnt < 2 ^ bits)
    (hk : w.app.ref_cnt - w.win._ref_count < 1000) :
    ∃ w', rtgui_win_end_modal bits modal w = some w' ∧
      w'.win = { w.win with flag.MODAL := false } ∧
      w'.app.ref_cnt = cnt_dec bits (w.app.ref_cnt - (w.app.ref_cnt - w.win._ref_count)) ∧
      w'.app.win_cnt = w.app.win_cnt ∧ w'.app.KEEP = w.app.KEEP ∧
      w'.app.main_win = w.app.main_win ∧
      w'.log = w.log ++ List.replicate (w.app.ref_cnt - w.win._ref_count) (Effect.app_exit 0)
        ++ [Effect.app_exit modal] ∧
      w'.pool = w.pool ∧ w'.allocs = w.allocs ∧ w'.server = w.server ∧ w'.sent = w.sent := by
  obtain ⟨w1, h1, h2, h3, h4, h5, h6, h7, h8, h9, h10, h11⟩ :=
    end_modal_loop_spec bits (w.app.ref_cnt - w.win._ref_count) 1000 0 w hr rfl hk (by omega)
  refine ⟨_, by simp [rtgui_win_end_modal, hm, h1]; rfl, ?_⟩
  simp [rtgui_app_exit, h2, h3, h4, h5, h6, h7, h8, h9, h10, h11]

/-- Whenever `rtgui_win_end_modal` returns, SHOWN and CONNECTED are as before. -/
theorem rtgui_win_end_modal_win (bits : Nat) (modal : Int) (w w' : World)
    (h : rtgui_win_end_modal bits modal w = some w') :
    w'.win.SHOWN = w.win.SHOWN ∧ w'.win.flag.CONNECTED = w.win.flag.CONNECTED := by
  unfold rtgui_win_end_modal at h
  cases hm : w.win.flag.MODAL
  · simp [hm] at h; subst h; exact ⟨rfl, rfl⟩
  · simp only [hm] at h
    cases hl : end_modal_loop bits 1000 0 w with
    | none => simp [hl] at h
    | some w1 =>
      have hw := end_modal_loop_win bits 1000 0 w w1 hl
      simp [hl, rtgui_app_exit] at h
      subst h
      simp [hw]

/-- What `rtgui_win_hide` never writes. -/
theorem rtgui_win_hide_frame (w : World) :
    (rtgui_win_hide w).app = w.app ∧ exits (rtgui_win_hide w).log = exits w.log ∧
    (rtgui_win_hide w).win.flag.CONNECTED = w.win.flag.CONNECTED ∧
    (rtgui_win_hide w).win.flag.MODAL = w.win.flag.MODAL ∧
    (rtgui_win_hide w).win.flag.CLOSED = w.win.flag.CLOSED ∧
    (rtgui_win_hide w).win._ref_count = w.win._ref_count ∧
    (rtgui_win_hide w).win.style = w.win.style ∧
    (rtgui_win_hide w).win.on_close = w.win.on_close ∧
    (rtgui_win_hide w).win.deleted = w.win.deleted := by
  unfold rtgui_win_hide
  cases hs : w.win.SHOWN <;> cases hc : w.win.flag.CONNECTED <;>
    cases ha : w.pool w.allocs <;>
    simp [RTGUI_CREATE_EVENT, rtgui_send_request_sync, rtgui_widget_hide, hs, hc, ha]
  by_cases h0 : w.server w.sent = 0 <;> simp [h0, hc, exits_append, exits]

/-- When `rtgui_win_hide` leaves the window hidden. -/
theorem rtgui_win_hide_shown (w : World) :
    ((rtgui_win_hide w).win.SHOWN = false ↔
      (w.win.SHOWN = false ∨ (w.win.flag.CONNECTED = true ∧ accepts w 0))) ∧
    ((rtgui_win_hide w).win.SHOWN = true → w.win.SHOWN = true) := by
  unfold rtgui_win_hide accepts
  cases hs : w.win.SHOWN <;> cases hc : w.win.flag.CONNECTED <;>
    cases ha : w.pool w.allocs <;>
    simp [RTGUI_CREATE_EVENT, rtgui_send_request_sync, rtgui_widget_hide, hs, hc, ha]
  by_cases h0 : w.server w.sent = 0 <;> simp [h0, hs]

/-- The function `rtgui_win_hide` keeps `shown_connected`. -/
theorem rtgui_win_hide_shown_connected (w : World) (h : shown_connected w) :
    shown_connected (rtgui_win_hide w) := by
  obtain ⟨_, _, hcon, _⟩ := rtgui_win_hide_frame w
  obtain ⟨_, hsh⟩ := rtgui_win_hide_shown w
  intro hs
  rw [hcon]
  exact h (hsh hs)

/-- What freeing the instance leaves alone. -/
theorem DELETE_INSTANCE_frame (w : World) :
    (DELETE_INSTANCE w).app = w.app ∧ exits (DELETE_INSTANCE w).log = exits w.log ∧
    (DELETE_INSTANCE w).win.SHOWN = w.win.SHOWN ∧ (DELETE_INSTANCE w).win.flag = w.win.flag ∧
    (DELETE_INSTANCE w).win.style = w.win.style ∧
    (DELETE_INSTANCE w).win.deleted = true := by
  unfold DELETE_INSTANCE _win_destructor
  cases hc : w.win.flag.CONNECTED <;> cases ha : w.pool w.allocs <;>
    cases ht : w.win._title <;>
    simp [RTGUI_CREATE_EVENT, rtgui_send_request_sync, hc, ha, ht, exits_append, exits]
  all_goals
    by_cases h0 : w.server w.sent = 0 <;> simp [h0, hc, exits_append, exits]

/-- The effect of the last steps of `_win_do_close`. -/
theorem _win_do_close_finish_frame (bits : Nat) (w : World) :
    (_win_do_close_finish bits w).app.win_cnt = cnt_dec bits w.app.win_cnt ∧
    exits (_win_do_close_finish bits w).log = exits w.log ++
      (if cnt_dec bits w.app.win_cnt = 0 ∧ w.app.KEEP = false then [0] else []) ∧
    (_win_do_close_finish bits w).win.SHOWN = w.win.SHOWN ∧
    (_win_do_close_finish bits w).win.flag = w.win.flag := by
  unfold _win_do_close_finish DELETE_WIN_INSTANCE
  by_cases hz : cnt_dec bits w.app.win_cnt = 0 <;> cases hk : w.app.KEEP <;>
    cases hd : w.win.style.DESTROY_ON_CLOSE <;>
    simp [hz, hk, hd, rtgui_app_exit, exits_append, exits, DELETE_INSTANCE_frame]

/-- The shape of `_win_do_close` when the close is not aborted; `w2` is the
state after `rtgui_win_hide` and `WIN_FLAG_SET(win, CLOSED)`. -/
theorem _win_do_close_not_aborted (bits : Nat) (force : Bool) (w w2 : World)
    (hna : w.win.on_close = none ∨ w.win.on_close = some true ∨ force = true)
    (hw2 : w2 = { rtgui_win_hide w with win.flag.CLOSED := true }) :
    ∃ done, _win_do_close bits force w =
      match (if w2.win.flag.MODAL then rtgui_win_end_modal bits RTGUI_MODAL_CANCEL w2
             else some w2) with
      | none => none
      | some w3 => some (done, _win_do_close_finish bits w3) := by
  subst hw2
  refine ⟨(match w.win.on_close with | some d => d | none => true), ?_⟩
  unfold _win_do_close
  rcases hna with h | h | h
  · simp [h]
  · simp [h]
  · cases hc : w.win.on_close <;> simp [h]

/-- Facts about the state after `rtgui_win_hide` and `WIN_FLAG_SET(win, CLOSED)`. -/
theorem closed_after_hide (w w2 : World)
    (hw2 : w2 = { rtgui_win_hide w with win.flag.CLOSED := true }) :
    w2.app = w.app ∧ exits w2.log = exits w.log ∧ w2.win.flag.MODAL = w.win.flag.MODAL ∧
    w2.win._ref_count = w.win._ref_count ∧ w2.win.flag.CLOSED = true ∧
    w2.win.flag.CONNECTED = w.win.flag.CONNECTED ∧
    (w2.win.SHOWN = false ↔
      (w.win.SHOWN = false ∨ (w.win.flag.CONNECTED = true ∧ accepts w 0))) ∧
    (w2.win.SHOWN = true → w.win.SHOWN = true) ∧
    w2.win.style = w.win.style := by
  obtain ⟨happ, hex, hcon, hmod, _, hrc, hst, _⟩ := rtgui_win_hide_frame w
  obtain ⟨hsh, hsh2⟩ := rtgui_win_hide_shown w
  subst hw2
  exact ⟨happ, hex, hmod, hrc, rfl, hcon, hsh, hsh2, hst⟩

/-- Whenever `rtgui_win_end_modal` returns, MODAL is clear; style and the
instance are as before. -/
theorem rtgui_win_end_modal_win2 (bits : Nat) (modal : Int) (w w' : World)
    (h : rtgui_win_end_modal bits modal w = some w') :
    w'.win.flag.MODAL = false ∧ w'.win.style = w.win.style ∧
    w'.win.deleted = w.win.deleted := by
  unfold rtgui_win_end_modal at h
  cases hm : w.win.flag.MODAL
  · simp [hm] at h; subst h; exact ⟨hm, rfl, rfl⟩
  · simp only [hm] at h
    cases hl : end_modal_loop bits 1000 0 w with
    | none => simp [hl] at h
    | some w1 =>
      have hw := end_modal_loop_win bits 1000 0 w w1 hl
      simp [hl, rtgui_app_exit] at h
      subst h
      simp [hw]

/-- Without the DESTROY_ON_CLOSE style the last steps of `_win_do_close` keep the
style and do not free the instance. -/
theorem _win_do_close_finish_style (bits : Nat) (w : World)
    (hd : w.win.style.DESTROY_ON_CLOSE = false) :
    (_win_do_close_finish bits w).win.style = w.win.style ∧
    (_win_do_close_finish bits w).win.deleted = w.win.deleted := by
  unfold _win_do_close_finish
  by_cases hz : cnt_dec bits w.app.win_cnt = 0 <;> cases hk : w.app.KEEP <;>
    simp [hz, hk, hd, rtgui_app_exit]

/-- Whenever `rtgui_win_uninit` returns on a window that is not CLOSED and has no
DESTROY_ON_CLOSE style (MODAL or not), the instance has been freed inside the
call and DESTROY_ON_CLOSE is still clear: after the forced close MODAL is
always clear, so the deferred branch is not taken. -/
theorem rtgui_win_uninit_modal_frees (bits : Nat) (w w' : World)
    (hc : w.win.flag.CLOSED = false) (hs : w.win.style.DESTROY_ON_CLOSE = false)
    (h : rtgui_win_uninit bits w = some w') :
    w'.win.deleted = true ∧ w'.win.style.DESTROY_ON_CLOSE = false := by
  unfold rtgui_win_uninit at h
  simp only [hc, Bool.not_false, if_true] at h
  generalize hw0 : ({ w with win._magic := false } : World) = w0 at h
  have hs0 : w0.win.style.DESTROY_ON_CLOSE = false := by rw [← hw0]; exact hs
  cases hr : _win_do_close bits true w0 with
  | none => simp [hr] at h
  | some r =>
    simp only [hr] at h
    generalize hw2 : ({ rtgui_win_hide w0 with win.flag.CLOSED := true } : World) = w2
    obtain ⟨done, hd⟩ :=
      _win_do_close_not_aborted bits true w0 w2 (Or.inr (Or.inr rfl)) hw2.symm
    obtain ⟨_, _, _, _, _, _, _, _, hst⟩ := closed_after_hide w0 w2 hw2.symm
    rw [hd] at hr
    have key : ∀ w3 : World, w3.win.flag.MODAL = false → w3.win.style = w2.win.style →
        r.2 = _win_do_close_finish bits w3 →
        w'.win.deleted = true ∧ w'.win.style.DESTROY_ON_CLOSE = false := by
      intro w3 a b c
      have hs3 : w3.win.style.DESTROY_ON_CLOSE = false := by rw [b, hst]; exact hs0
      obtain ⟨f1, _⟩ := _win_do_close_finish_style bits w3 hs3
      obtain ⟨_, _, _, f4⟩ := _win_do_close_finish_frame bits w3
      have hrs : r.2.win.style.DESTROY_ON_CLOSE = false := by rw [c, f1]; exact hs3
      have hrm : r.2.win.flag.MODAL = false := by rw [c, f4]; exact a
      simp [hrs, hrm] at h
      obtain ⟨_, _, _, _, d5, d6⟩ := DELETE_INSTANCE_frame r.2
      rw [← h]
      exact ⟨d6, by rw [d5]; exact hrs⟩
    cases hm : w2.win.flag.MODAL
    · simp [hm] at hr
      exact key w2 hm rfl (by rw [← hr])
    · simp only [hm, if_true] at hr
      cases he : rtgui_win_end_modal bits RTGUI_MODAL_CANCEL w2 with
      | none => simp [he] at hr
      | some w3 =>
        obtain ⟨a, b, _⟩ := rtgui_win_end_modal_win2 bits _ w2 w3 he
        simp [he] at hr
        exact key w3 a b (by rw [← hr])

/-- Whenever the `WIN_CREATE` request of `rtgui_win_show` is rejected with `e`, the
call returns `e` and leaves SHOWN set on the unconnected window. -/
theorem rtgui_win_show_create_rejected (bits : Nat) (run : World → Option (Int × World))
    (is_modal : Bool) (w : World) (e : Int) (hc : w.win.flag.CONNECTED = false)
    (ha : w.pool w.allocs = true) (hs : w.server w.sent = e) (he : e ≠ 0) :
    ∃ w', rtgui_win_show bits run is_modal w = some (e, w') ∧ w'.win.SHOWN = true ∧
      w'.win.flag.CONNECTED = false := by
  cases is_modal <;>
    simp [rtgui_win_show, _win_do_show, _win_create_in_server, RTGUI_CREATE_EVENT,
      rtgui_send_request_sync, hc, ha, hs, he]

/-- Whenever `_win_do_close` returns, CONNECTED is as before and SHOWN has not
been set. -/
theorem _win_do_close_frame (bits : Nat) (force : Bool) (w : World)
    (r : Bool × World) (h : _win_do_close bits force w = some r) :
    r.2.win.flag.CONNECTED = w.win.flag.CONNECTED ∧
    (r.2.win.SHOWN = true → w.win.SHOWN = true) := by
  by_cases hna : w.win.on_close = none ∨ w.win.on_close = some true ∨ force = true
  · generalize hw2 : ({ rtgui_win_hide w with win.flag.CLOSED := true } : World) = w2
    obtain ⟨done, hd⟩ := _win_do_close_not_aborted bits force w w2 hna hw2.symm
    obtain ⟨_, _, _, _, _, hcon, _, hsh, _⟩ := closed_after_hide w w2 hw2.symm
    rw [hd] at h
    have key : ∀ w3 : World, w3.win.SHOWN = w2.win.SHOWN →
        w3.win.flag.CONNECTED = w2.win.flag.CONNECTED →
        (_win_do_close_finish bits w3).win.flag.CONNECTED = w.win.flag.CONNECTED ∧
        ((_win_do_close_finish bits w3).win.SHOWN = true → w.win.SHOWN = true) := by
      intro w3 a b
      obtain ⟨_, _, f3, f4⟩ := _win_do_close_finish_frame bits w3
      refine ⟨by rw [f4, b, hcon], ?_⟩
      intro hs
      rw [f3, a] at hs
      exact hsh hs
    cases hm : w2.win.flag.MODAL
    · simp [hm] at h
      rw [← h]
      exact key w2 rfl rfl
    · simp only [hm, if_true] at h
      cases he : rtgui_win_end_modal bits RTGUI_MODAL_CANCEL w2 with
      | none => simp [he] at h
      | some w3 =>
        obtain ⟨a, b⟩ := rtgui_win_end_modal_win bits _ w2 w3 he
        simp [he] at h
        rw [← h]
        exact key w3 a b
  · have h1 : w.win.on_close = some false := by
      cases hc : w.win.on_close with
      | none => exact absurd (Or.inl hc) hna
      | some b => cases b
                  · rfl
                  · exact absurd (Or.inr (Or.inl hc)) hna
    have h2 : force = false := by
      cases force
      · rfl
      · exact absurd (Or.inr (Or.inr rfl)) hna
    subst h2
    simp [_win_do_close, h1] at h
    rw [← h]
    exact ⟨rfl, fun hs => hs⟩

/-- The function `_win_create_in_server` leaves SHOWN alone, never clears
CONNECTED and sets it when it returns `RT_EOK`. -/
theorem _win_create_in_server_frame (w : World) :
    (_win_create_in_server w).2.win.SHOWN = w.win.SHOWN ∧
    (w.win.flag.CONNECTED = true → (_win_create_in_server w).2.win.flag.CONNECTED = true) ∧
    ((_win_create_in_server w).1 = 0 →
      (_win_create_in_server w).2.win.flag.CONNECTED = true) := by
  unfold _win_create_in_server
  cases hc : w.win.flag.CONNECTED <;> cases ha : w.pool w.allocs <;>
    simp [RTGUI_CREATE_EVENT, rtgui_send_request_sync, hc, ha, RT_EOK, RT_ENOMEM]
  by_cases h0 : w.server w.sent = 0 <;> simp [h0, hc]

/-- The function `rtgui_win_init` leaves SHOWN alone and never clears
CONNECTED. -/
theorem rtgui_win_init_frame (bits : Nat) (border height : Int)
    (parent : Option Nat) (title_ok : Bool) (rect : rtgui_rect) (style : win_style)
    (w : World) :
    (rtgui_win_init bits border height parent title_ok rect style w).2.win.SHOWN
      = w.win.SHOWN ∧
    (w.win.flag.CONNECTED = true →
      (rtgui_win_init bits border height parent title_ok rect style w).2.win.flag.CONNECTED
        = true) := by
  have key : ∀ v : World, v.win.SHOWN = w.win.SHOWN →
      v.win.flag.CONNECTED = w.win.flag.CONNECTED →
      (if (_win_create_in_server v).1 ≠ 0 then
          ((_win_create_in_server v).1, (_win_create_in_server v).2)
        else ((_win_create_in_server v).1,
          { (_win_create_in_server v).2 with
            app.win_cnt := cnt_inc bits (_win_create_in_server v).2.app.win_cnt })).2.win.SHOWN
        = w.win.SHOWN ∧
      (w.win.flag.CONNECTED = true →
        (if (_win_create_in_server v).1 ≠ 0 then
          ((_win_create_in_server v).1, (_win_create_in_server v).2)
        else ((_win_create_in_server v).1,
          { (_win_create_in_server v).2 with
            app.win_cnt := cnt_inc bits (_win_create_in_server v).2.app.win_cnt
              })).2.win.flag.CONNECTED = true) := by
    intro v hv1 hv2
    obtain ⟨a, b, _⟩ := _win_create_in_server_frame v
    split
    · exact ⟨by simp [a, hv1], fun hc => by simpa using b (by rw [hv2]; exact hc)⟩
    · exact ⟨by simp [a, hv1], fun hc => by simpa using b (by rw [hv2]; exact hc)⟩
  unfold rtgui_win_init
  simp only []
  split
  · split
    · exact ⟨rfl, fun hc => hc⟩
    · exact key _ rfl rfl
  · exact key _ rfl rfl

/-- The function `rtgui_win_move` keeps a window CONNECTED. -/
theorem rtgui_win_move_connected (x y : Int) (w : World) (hc : w.win.flag.CONNECTED = true) :
    (rtgui_win_move x y w).win.flag.CONNECTED = true := by
  unfold rtgui_win_move
  cases ha : w.pool w.allocs <;>
    simp [RTGUI_CREATE_EVENT, rtgui_send_request_sync, rtgui_widget_hide, rtgui_widget_show,
      hc, ha]
  split <;> simp [hc]

/-- On a CONNECTED window `rtgui_win_enter_modal` ends with the window
CONNECTED, provided the nested loop does not disconnect it. -/
theorem rtgui_win_enter_modal_connected (bits : Nat)
    (run : World → Option (Int × World))
    (hrun : ∀ v r, v.win.flag.CONNECTED = true → run v = some r →
      r.2.win.flag.CONNECTED = true)
    (w : World) (r : Int × World) (hc : w.win.flag.CONNECTED = true)
    (h : rtgui_win_enter_modal bits run w = some r) : r.2.win.flag.CONNECTED = true := by
  unfold rtgui_win_enter_modal at h
  cases ha : w.pool w.allocs
  · simp [RTGUI_CREATE_EVENT, ha] at h
    rw [← h]; exact hc
  · by_cases h0 : w.server w.sent = 0
    · simp only [RTGUI_CREATE_EVENT, rtgui_send_request_sync, ha, h0] at h
      simp only [Bool.not_true, Bool.false_eq_true, if_false, ne_eq, not_true_eq_false] at h
      split at h
      · simp at h
      · rename_i r1 hr1
        have h1 := hrun _ r1 (by simpa using hc) hr1
        simp at h
        rw [← h]
        obtain ⟨_, _, hcon, _⟩ := rtgui_win_hide_frame
          { r1.2 with win.flag.MODAL := false }
        rw [hcon]
        exact h1
    · simp [RTGUI_CREATE_EVENT, rtgui_send_request_sync, ha, h0] at h
      rw [← h]; exact hc

/-- The second half of `_win_do_show`, on a CONNECTED window, ends with the
window CONNECTED. -/
theorem _win_do_show_notify_connected (bits : Nat)
    (run : World → Option (Int × World))
    (hrun : ∀ v r, v.win.flag.CONNECTED = true → run v = some r →
      r.2.win.flag.CONNECTED = true)
    (v : World) (r : Int × World) (hv : v.win.flag.CONNECTED = true)
    (h : _win_do_show_notify bits run v = some r) : r.2.win.flag.CONNECTED = true := by
  unfold _win_do_show_notify at h
  cases ha : v.pool v.allocs
  · simp [RTGUI_CREATE_EVENT, rtgui_widget_show, ha] at h
    rw [← h]; exact hv
  · by_cases h0 : v.server v.sent = 0
    · cases hm : v.win.flag.MODAL
      · cases hf : v.win.focused <;> cases hmw : v.app.main_win <;>
          simp [RTGUI_CREATE_EVENT, rtgui_widget_show, rtgui_send_request_sync,
            rtgui_widget_focus, ha, h0, hm, hf, hmw] at h <;>
          (rw [← h]; exact hv)
      · cases hf : v.win.focused <;> cases hmw : v.app.main_win <;>
          simp [RTGUI_CREATE_EVENT, rtgui_widget_show, rtgui_send_request_sync,
            rtgui_widget_focus, ha, h0, hm, hf, hmw] at h <;>
          (refine rtgui_win_enter_modal_connected bits run hrun _ r ?_ h
           simpa using hv)
    · simp [RTGUI_CREATE_EVENT, rtgui_widget_show, rtgui_send_request_sync,
        rtgui_widget_hide, ha, h0] at h
      rw [← h]; exact hv

/-- The function `_win_do_show` ends with the window CONNECTED when it was
CONNECTED or its `WIN_CREATE` request is accepted. -/
theorem _win_do_show_connected (bits : Nat) (run : World → Option (Int × World))
    (hrun : ∀ v r, v.win.flag.CONNECTED = true → run v = some r →
      r.2.win.flag.CONNECTED = true)
    (w : World) (r : Int × World) (hg : w.win.flag.CONNECTED = true ∨ accepts w 0)
    (h : _win_do_show bits run w = some r) : r.2.win.flag.CONNECTED = true := by
  unfold _win_do_show at h
  cases hc : w.win.flag.CONNECTED
  · rcases hg with hg | ⟨ha, hs⟩
    · rw [hc] at hg; cases hg
    · simp only [Nat.add_zero] at ha hs
      simp [hc, _win_create_in_server, RTGUI_CREATE_EVENT, rtgui_send_request_sync, ha, hs]
        at h
      exact _win_do_show_notify_connected bits run hrun _ r rfl h
  · simp [hc] at h
    refine _win_do_show_notify_connected bits run hrun _ r ?_ h
    simp

/-- The function `rtgui_win_show` ends with the window CONNECTED when it was
CONNECTED or its `WIN_CREATE` request is accepted. -/
theorem rtgui_win_show_connected (bits : Nat) (run : World → Option (Int × World))
    (hrun : ∀ v r, v.win.flag.CONNECTED = true → run v = some r →
      r.2.win.flag.CONNECTED = true)
    (is_modal : Bool) (w : World) (r : Int × World)
    (hg : w.win.flag.CONNECTED = true ∨ accepts w 0)
    (h : rtgui_win_show bits run is_modal w = some r) : r.2.win.flag.CONNECTED = true := by
  unfold rtgui_win_show at h
  refine _win_do_show_connected bits run hrun _ r ?_ h
  rcases hg with hg | hg
  · left; cases is_modal <;> simpa using hg
  · right; cases is_modal <;> simpa [accepts] using hg

/-- No operation disconnects a window, provided the nested loop of a modal show
does not. -/
theorem apply_op_connected (bits : Nat) (border height : Int)
    (run : World → Option (Int × World))
    (hrun : ∀ v r, v.win.flag.CONNECTED = true → run v = some r →
      r.2.win.flag.CONNECTED = true)
    (op : win_op) (w w1 : World) (hc : w.win.flag.CONNECTED = true)
    (h : apply_op bits border height run op w = some w1) :
    w1.win.flag.CONNECTED = true := by
  cases op with
  | op_init parent title_ok rect style =>
    simp [apply_op] at h
    rw [← h]
    exact (rtgui_win_init_frame bits border height parent title_ok rect style w).2 hc
  | op_show is_modal =>
    simp only [apply_op] at h
    cases hr : rtgui_win_show bits run is_modal w with
    | none => simp [hr] at h
    | some r =>
      simp [hr] at h
      rw [← h]
      exact rtgui_win_show_connected bits run hrun is_modal w r (Or.inl hc) hr
  | op_hide =>
    simp [apply_op] at h
    rw [← h, (rtgui_win_hide_frame w).2.2.1]
    exact hc
  | op_move x y =>
    simp [apply_op] at h
    rw [← h]
    exact rtgui_win_move_connected x y w hc
  | op_close force =>
    simp only [apply_op] at h
    cases hr : _win_do_close bits force w with
    | none => simp [hr] at h
    | some r =>
      simp [hr] at h
      rw [← h, (_win_do_close_frame bits force w r hr).1]
      exact hc

/-- One guarded operation keeps `shown_connected`, provided the nested loop of a
modal show does not disconnect the window. -/
theorem apply_op_shown_connected (bits : Nat) (border height : Int)
    (run : World → Option (Int × World))
    (hrun : ∀ v r, v.win.flag.CONNECTED = true → run v = some r →
      r.2.win.flag.CONNECTED = true)
    (op : win_op) (w w1 : World) (hinv : shown_connected w) (hg : op_guard op w = true)
    (h : apply_op bits border height run op w = some w1) : shown_connected w1 := by
  cases op with
  | op_init parent title_ok rect style =>
    simp [apply_op] at h
    obtain ⟨a, b⟩ := rtgui_win_init_frame bits border height parent title_ok rect style w
    rw [← h]
    intro hs
    rw [a] at hs
    exact b (hinv hs)
  | op_show is_modal =>
    simp only [apply_op] at h
    cases hr : rtgui_win_show bits run is_modal w with
    | none => simp [hr] at h
    | some r =>
      simp [hr] at h
      rw [← h]
      intro _
      refine rtgui_win_show_connected bits run hrun is_modal w r ?_ hr
      simpa [op_guard] using hg
  | op_hide =>
    simp [apply_op] at h
    rw [← h]
    exact rtgui_win_hide_shown_connected w hinv
  | op_move x y =>
    simp [apply_op] at h
    rw [← h]
    intro _
    exact rtgui_win_move_connected x y w (by simpa [op_guard] using hg)
  | op_close force =>
    simp only [apply_op] at h
    cases hr : _win_do_close bits force w with
    | none => simp [hr] at h
    | some r =>
      simp [hr] at h
      obtain ⟨a, b⟩ := _win_do_close_frame bits force w r hr
      rw [← h]
      intro hs
      rw [a]
      exact hinv (b hs)

/-- A guarded sequence of operations keeps `shown_connected`. -/
theorem run_ops_shown_connected (bits : Nat) (border height : Int)
    (run : World → Option (Int × World))
    (hrun : ∀ v r, v.win.flag.CONNECTED = true → run v = some r →
      r.2.win.flag.CONNECTED = true) :
    ∀ (ops : List win_op) (w w' : World), shown_connected w →
      guarded bits border height run ops w = true →
      run_ops bits border height run ops w = some w' → shown_connected w' := by
  intro ops
  induction ops with
  | nil =>
    intro w w' hinv _ h
    simp [run_ops] at h
    rw [← h]; exact hinv
  | cons op ops ih =>
    intro w w' hinv hg h
    unfold run_ops at h
    unfold guarded at hg
    cases hd : w.win.deleted
    · simp only [hd, Bool.false_or, Bool.and_eq_true] at hg
      simp only [hd, Bool.false_eq_true, if_false] at h
      obtain ⟨hg1, hg2⟩ := hg
      cases ha : apply_op bits border height run op w with
      | none => simp [ha] at h
      | some w1 =>
        simp only [ha] at h hg2
        exact ih w1 w' (apply_op_shown_connected bits border height run hrun op w w1 hinv hg1 ha)
          hg2 h
    · simp [hd] at h
      rw [← h]; exact hinv

/-- The key handling branch leaves the window's flags alone. -/
theorem _win_kbd_handle_key_frame (w : World) (r : Bool × World)
    (h : _win_kbd_handle_key w = some r) :
    r.2.win.flag = w.win.flag ∧ r.2.win.on_key = w.win.on_key := by
  unfold _win_kbd_handle_key call_on_key at h
  cases hk : w.win.on_key <;> simp [hk] at h
  rw [← h]
  exact ⟨rfl, hk⟩

/-- The dispatch loop leaves the window's flags alone. -/
theorem _win_kbd_dispatch_flag :
    ∀ (l : List key_target) (done : Bool) (w : World) (r : Bool × World),
      _win_kbd_dispatch l done w = some r → r.2.win.flag = w.win.flag := by
  intro l
  induction l with
  | nil =>
    intro done w r h
    simp [_win_kbd_dispatch] at h
    rw [← h]
  | cons t rest ih =>
    intro done w r h
    cases t with
    | widget hd =>
      cases hd with
      | none => exact ih done w r (by simpa [_win_kbd_dispatch] using h)
      | some d =>
        cases d
        · exact ih false w r (by simpa [_win_kbd_dispatch] using h)
        · simp [_win_kbd_dispatch] at h
          rw [← h]
    | window =>
      simp only [_win_kbd_dispatch] at h
      cases hk : _win_kbd_handle_key w with
      | none => simp [hk] at h
      | some r1 =>
        have hf := (_win_kbd_handle_key_frame w r1 hk).1
        simp only [hk] at h
        cases h1 : r1.1
        · simp only [h1, Bool.false_eq_true, if_false] at h
          rw [ih false r1.2 r h, hf]
        · simp only [h1, if_true] at h
          rw [← Option.some.inj h]
          exact hf

/-- The event handler does not disconnect a window, provided the nested loop of
a modal show does not. -/
theorem _win_event_handler_connected (bits : Nat) (run : World → Option (Int × World))
    (hrun : ∀ v r, v.win.flag.CONNECTED = true → run v = some r →
      r.2.win.flag.CONNECTED = true)
    (evt : rtgui_evt) (w : World) (r : Bool × World) (hc : w.win.flag.CONNECTED = true)
    (h : _win_event_handler bits run evt w = some r) : r.2.win.flag.CONNECTED = true := by
  cases evt with
  | WIN_SHOW =>
    simp only [_win_event_handler] at h
    cases hr : _win_do_show bits run w with
    | none => simp [hr] at h
    | some r1 =>
      simp [hr] at h
      rw [← h]
      exact _win_do_show_connected bits run hrun w r1 (Or.inl hc) hr
  | WIN_HIDE =>
    simp [_win_event_handler] at h
    rw [← h]
    simpa [(rtgui_win_hide_frame w).2.2.1] using hc
  | WIN_CLOSE =>
    simp only [_win_event_handler] at h
    cases hr : _win_do_close bits false w with
    | none => simp [hr] at h
    | some r1 =>
      simp [hr] at h
      rw [← h]
      simpa [(_win_do_close_frame bits false w r1 hr).1] using hc
  | WIN_MOVE x y =>
    simp [_win_event_handler] at h
    rw [← h]
    exact rtgui_win_move_connected x y w hc
  | WIN_ACTIVATE =>
    simp only [_win_event_handler] at h
    cases hm : w.win.flag.IN_MODAL <;> cases hs : w.win.SHOWN <;>
      cases ht : w.win._title <;> cases ha : w.win.on_activate <;>
      simp [hm, hs, ht, ha, rtgui_widget_update_title] at h <;>
      (rw [← h]; simpa using hc)
  | WIN_DEACTIVATE =>
    simp only [_win_event_handler] at h
    cases ht : w.win._title <;> cases ha : w.win.on_deactivate <;>
      simp [ht, ha, rtgui_widget_update_title] at h <;>
      (rw [← h]; simpa using hc)
  | CLIP_INFO =>
    simp only [_win_event_handler] at h
    cases hcl : w.win.flag.CLOSED <;> cases ht : w.win._title <;>
      simp [rtgui_win_update_clip, hcl, ht] at h <;>
      (rw [← h]; simpa using hc)
  | KBD =>
    simp only [_win_event_handler] at h
    cases hk : w.win.flag.HANDLE_KEY
    · simp only [hk, Bool.not_false, if_true] at h
      cases hd : _win_kbd_dispatch
          (key_chain ({ w with win.flag.HANDLE_KEY := true } : World).win) true
          { w with win.flag.HANDLE_KEY := true } with
      | none => simp [hd] at h
      | some r1 =>
        simp [hd] at h
        rw [← h]
        have := _win_kbd_dispatch_flag _ true _ r1 hd
        simpa [this] using hc
    · simp only [hk, Bool.not_true, Bool.false_eq_true, if_false] at h
      have := (_win_kbd_handle_key_frame w r h).1
      rw [this]
      exact hc

/-- The event loop does not disconnect a window when the handler does not. -/
theorem app_event_loop_connected (handle : rtgui_evt → World → Option (Bool × World))
    (hh : ∀ e v r, v.win.flag.CONNECTED = true → handle e v = some r →
      r.2.win.flag.CONNECTED = true) (cur : Nat) :
    ∀ (fuel : Nat) (w : World) (r : Int × World), w.win.flag.CONNECTED = true →
      app_event_loop handle cur fuel w = some r → r.2.win.flag.CONNECTED = true := by
  intro fuel
  induction fuel with
  | zero => intro w r _ h; simp [app_event_loop] at h
  | succ n ih =>
    intro w r hc h
    unfold app_event_loop at h
    split at h
    · split at h
      · simp at h
      · rename_i e es hq
        simp only [] at h
        split at h
        · exact ih _ r (by simpa using hc) h
        · split at h
          · simp at h
          · rename_i r1 hr1
            exact ih _ r (hh e _ r1 (by simpa using hc) hr1) h
    · simp at h
      rw [← h]; exact hc

/-- The modelled nested run of the event loop does not disconnect a window. -/
theorem rtgui_app_run_model_connected (bits : Nat) :
    ∀ (depth : Nat) (v : World) (r : Int × World), v.win.flag.CONNECTED = true →
      rtgui_app_run_model bits depth v = some r → r.2.win.flag.CONNECTED = true := by
  intro depth
  induction depth with
  | zero => intro v r _ h; simp [rtgui_app_run_model] at h
  | succ d ih =>
    intro v r hc h
    unfold rtgui_app_run_model at h
    exact app_event_loop_connected _
      (fun e v1 r1 h1 h2 => _win_event_handler_connected bits _ ih e v1 r1 h1 h2)
      _ _ _ r (by simpa [rtgui_app_run_enter] using hc) h

/-- When its `WIN_MODAL_ENTER` request is accepted, `rtgui_win_enter_modal`
starts the nested loop in a state where the window has MODAL and has recorded
`_ref_count = ref_cnt + 1`; when the loop returns it clears MODAL and hides the
window. -/
theorem rtgui_win_enter_modal_records (bits : Nat) (run : World → Option (Int × World))
    (w : World) (h : accepts w 0) :
    ∃ w1 : World, w1.win.flag.MODAL = true ∧
      w1.win._ref_count = cnt_inc bits w.app.ref_cnt ∧ w1.app = w.app ∧
      rtgui_win_enter_modal bits run w =
        match run w1 with
        | none => none
        | some r => some (0, rtgui_win_hide { r.2 with win.flag.MODAL := false }) := by
  obtain ⟨ha, hs⟩ := h
  simp only [Nat.add_zero] at ha hs
  refine ⟨{ w with allocs := w.allocs + 1, sent := w.sent + 1,
                   log := w.log ++ [Effect.request rtgui_request.WIN_MODAL_ENTER],
                   win.flag.MODAL := true,
                   win._ref_count := cnt_inc bits w.app.ref_cnt }, rfl, rfl, rfl, ?_⟩
  simp only [rtgui_win_enter_modal, RTGUI_CREATE_EVENT, rtgui_send_request_sync, ha, hs]
  simp only [Bool.not_true, Bool.false_eq_true, if_false, ne_eq, not_true_eq_false]

/-- A rectangle that holds a point is not empty. -/
theorem rect_nonempty_of_contains (r : rtgui_rect) (x y : Int)
    (h : rect_contains r x y = true) : rect_nonempty r = true := by
  simp only [rect_contains, rect_nonempty, Bool.and_eq_true, decide_eq_true_eq] at *
  omega

/-- Membership in a concatenation of rectangle lists. -/
theorem rects_contain_append (l1 l2 : List rtgui_rect) (x y : Int) :
    rects_contain (l1 ++ l2) x y = (rects_contain l1 x y || rects_contain l2 x y) := by
  induction l1 with
  | nil => simp [rects_contain]
  | cons a l ih => simp [rects_contain, ih, Bool.or_assoc]

/-- Dropping the empty rectangles of a list drops no point. -/
theorem rects_contain_filter (l : List rtgui_rect) (x y : Int) :
    rects_contain (l.filter rect_nonempty) x y = rects_contain l x y := by
  induction l with
  | nil => rfl
  | cons a l ih =>
    cases hn : rect_nonempty a
    · have hc : rect_contains a x y = false := by
        cases hc : rect_contains a x y
        · rfl
        · rw [rect_nonempty_of_contains a x y hc] at hn
          exact absurd hn (by decide)
      simp [List.filter, hn, rects_contain, ih, hc]
    · simp [List.filter, hn, rects_contain, ih]

/-- The points of `region_of_rects l` are the points of the rectangles of `l`. -/
theorem region_contains_of_rects (l : List rtgui_rect) (x y : Int) :
    region_contains (region_of_rects l) x y = rects_contain l x y := by
  cases l with
  | nil => rfl
  | cons a l =>
    cases l with
    | nil => rfl
    | cons b l => rfl

/-- The common part of two rectangles holds the points of both. -/
theorem rect_contains_intersect (a r : rtgui_rect) (x y : Int) :
    rect_contains (rect_intersect a r) x y = (rect_contains a x y && rect_contains r x y) := by
  rw [Bool.eq_iff_iff]
  simp only [rect_contains, rect_intersect, Bool.and_eq_true, decide_eq_true_eq]
  constructor <;> intro h <;> omega

/-- The points of `intersect_rects l r` are the points of `l` that lie in `r`. -/
theorem rects_contain_intersect_rects (l : List rtgui_rect) (r : rtgui_rect) (x y : Int) :
    rects_contain (intersect_rects l r) x y = (rects_contain l x y && rect_contains r x y) := by
  induction l with
  | nil => simp [intersect_rects, rects_contain]
  | cons a l ih =>
    have hi := rect_contains_intersect a r x y
    cases hn : rect_nonempty (rect_intersect a r)
    · have hc : rect_contains (rect_intersect a r) x y = false := by
        cases hc : rect_contains (rect_intersect a r) x y
        · rfl
        · rw [rect_nonempty_of_contains _ x y hc] at hn
          exact absurd hn (by decide)
      rw [hc] at hi
      simp [intersect_rects, hn, rects_contain, ih, Bool.and_or_distrib_right, ← hi]
    · simp [intersect_rects, hn, rects_contain, ih, Bool.and_or_distrib_right, hi]

/-- The pieces of `rect_subtract a r` hold the points of `a` outside `r`. -/
theorem rects_contain_rect_subtract (a r : rtgui_rect) (x y : Int) :
    rects_contain (rect_subtract a r) x y = (rect_contains a x y && !rect_contains r x y) := by
  unfold rect_subtract
  rw [rects_contain_filter, Bool.eq_iff_iff]
  simp only [rects_contain, rect_contains, Bool.and_eq_true, Bool.or_eq_true, Bool.or_false,
    decide_eq_true_eq, Bool.not_eq_true', Bool.and_eq_false_imp, decide_eq_false_iff_not]
  constructor <;> intro h <;> omega

/-- The points of `subtract_rects l r` are the points of `l` outside `r`. -/
theorem rects_contain_subtract_rects (l : List rtgui_rect) (r : rtgui_rect) (x y : Int) :
    rects_contain (subtract_rects l r) x y = (rects_contain l x y && !rect_contains r x y) := by
  induction l with
  | nil => simp [subtract_rects, rects_contain]
  | cons a l ih =>
    simp [subtract_rects, rects_contain, rects_contain_append, rects_contain_rect_subtract, ih,
      Bool.and_or_distrib_right]

/-- The points of `rtgui_region_intersect_rect reg rect`. -/
theorem region_contains_intersect_rect (reg : rtgui_region) (rect : rtgui_rect) (x y : Int) :
    region_contains (rtgui_region_intersect_rect reg rect) x y
      = (region_contains reg x y && rect_contains rect x y) := by
  unfold rtgui_region_intersect_rect
  rw [region_contains_of_rects, rects_contain_intersect_rects]
  rfl

/-- The points of `rtgui_region_subtract_rect reg rect`. -/
theorem region_contains_subtract_rect (reg : rtgui_region) (rect : rtgui_rect) (x y : Int) :
    region_contains (rtgui_region_subtract_rect reg rect) x y
      = (region_contains reg x y && !rect_contains rect x y) := by
  unfold rtgui_region_subtract_rect
  rw [region_contains_of_rects, rects_contain_subtract_rects]
  rfl

/-- The points of the region of one rectangle. -/
theorem region_contains_init_with_extents (rect : rtgui_rect) (x y : Int) :
    region_contains (rtgui_region_init_with_extents rect) x y = rect_contains rect x y := by
  simp [region_contains, region_rects, rtgui_region_init_with_extents, rects_contain]

/-- The bitwise exclusive or of `y` with `x ^ y` gives back `x`. -/
theorem int_xor_cancel (x y : Int) : Int.xor y (Int.xor x y) = x := by
  have hn : ∀ m n : Nat, n ^^^ (m ^^^ n) = m := by
    intro m n
    rw [Nat.xor_comm m n, ← Nat.xor_assoc, Nat.xor_self, Nat.zero_xor]
  cases x <;> cases y <;> simp [Int.xor, hn]

/-- The bitwise exclusive or of `x ^ y` with `x` gives `y`. -/
theorem int_xor_cancel_left (x y : Int) : Int.xor (Int.xor x y) x = y := by
  have hn : ∀ m n : Nat, (m ^^^ n) ^^^ m = n := by
    intro m n
    rw [Nat.xor_comm m n, Nat.xor_assoc, Nat.xor_self, Nat.xor_zero]
  cases x <;> cases y <;> simp [Int.xor, hn]

/-- The macro `_int_swap` exchanges its two arguments. -/
theorem _int_swap_eq (x y : Int) : _int_swap x y = (y, x) := by
  simp [_int_swap, int_xor_cancel, int_xor_cancel_left]

/-- The device coordinates of a request: the smaller and the larger endpoint
moved by the owner's `extent.x1`, the row moved by `extent.y1`. -/
theorem logic_to_device_eq (owner : rtgui_widget_t) (x1 x2 y : Int) :
    logic_to_device owner x1 x2 y
      = (min x1 x2 + owner.extent.x1, max x1 x2 + owner.extent.x1, y + owner.extent.y1) := by
  unfold logic_to_device
  by_cases h : x1 + owner.extent.x1 > x2 + owner.extent.x1
  · have h1 : x2 ≤ x1 := by omega
    simp [h, _int_swap_eq, min_eq_right h1, max_eq_left h1]
  · have h1 : x1 ≤ x2 := by omega
    simp [h, min_eq_left h1, max_eq_right h1]

/-- The loop of `rtgui_dc_client_draw_hline` makes, rectangle by rectangle, the
calls of `hline_spec`. -/
theorem draw_hline_loop_eq (fg : Nat) (lo hi y : Int) (l : List rtgui_rect) :
    draw_hline_loop fg lo hi y l = l.filterMap (hline_spec fg lo hi y) := by
  induction l with
  | nil => rfl
  | cons R l ih =>
    by_cases hy : R.y1 ≤ y ∧ y < R.y2
    · by_cases hx : lo < R.x2 ∧ R.x1 ≤ hi
      · have c1 : ¬ (R.y1 > y ∨ R.y2 ≤ y) := by omega
        have c2 : ¬ (R.x2 ≤ lo ∨ R.x1 > hi) := by omega
        have c3 : R.y1 ≤ y ∧ y < R.y2 ∧ lo < R.x2 ∧ R.x1 ≤ hi := ⟨hy.1, hy.2, hx.1, hx.2⟩
        have m1 : (if R.x1 > lo then R.x1 else lo) = max lo R.x1 := by
          by_cases h : R.x1 > lo
          · simp [h, max_eq_right (le_of_lt h)]
          · simp [h, max_eq_left (not_lt.mp h)]
        have m2 : (if R.x2 < hi then R.x2 else hi) = min hi R.x2 := by
          by_cases h : R.x2 < hi
          · simp [h, min_eq_right (le_of_lt h)]
          · simp [h, min_eq_left (not_lt.mp h)]
        simp only [draw_hline_loop, List.filterMap_cons, hline_spec, Bool.or_eq_true,
          decide_eq_true_eq, c1, c2, c3, if_false, if_true, and_self, m1, m2, ih]
      · have c2 : R.x2 ≤ lo ∨ R.x1 > hi := by omega
        have c1 : ¬ (R.y1 > y ∨ R.y2 ≤ y) := by omega
        have c3 : ¬ (R.y1 ≤ y ∧ y < R.y2 ∧ lo < R.x2 ∧ R.x1 ≤ hi) := by omega
        simp only [draw_hline_loop, List.filterMap_cons, hline_spec, Bool.or_eq_true,
          decide_eq_true_eq, c1, c2, c3, if_false, if_true, ih]
    · have c1 : R.y1 > y ∨ R.y2 ≤ y := by omega
      have c3 : ¬ (R.y1 ≤ y ∧ y < R.y2 ∧ lo < R.x2 ∧ R.x1 ≤ hi) := by omega
      simp only [draw_hline_loop, List.filterMap_cons, hline_spec, Bool.or_eq_true,
        decide_eq_true_eq, c1, c3, if_false, if_true, ih]

/-- The flat branch of `rtgui_dc_client_draw_hline` makes the calls the loop
makes on the one rectangle `clip.extents`. -/
theorem draw_hline_flat_eq (owner : rtgui_widget_t) (lo hi y : Int) :
    draw_hline_flat owner lo hi y
      = draw_hline_loop owner.foreground lo hi y [owner.clip.extents] := by
  simp only [draw_hline_flat, draw_hline_loop]

/-- The calls of `rtgui_dc_client_draw_hline` for a visible owner are those of
`hline_spec` on the rectangles of the clip, at the device coordinates. -/
theorem rtgui_dc_client_draw_hline_eq (owner : rtgui_widget_t) (x1 x2 y : Int) :
    rtgui_dc_client_draw_hline (some owner) x1 x2 y
      = if owner.visible then
          (region_rects owner.clip).filterMap
            (hline_spec owner.foreground (min x1 x2 + owner.extent.x1)
              (max x1 x2 + owner.extent.x1) (y + owner.extent.y1))
        else [] := by
  unfold rtgui_dc_client_draw_hline
  cases hv : owner.visible
  · simp [hv]
  · simp only [hv, Bool.not_true, if_true, logic_to_device_eq]
    cases hd : owner.clip.data with
    | none => simp [draw_hline_flat_eq, draw_hline_loop_eq, region_rects, hd]
    | some l => simp [draw_hline_loop_eq, region_rects, hd]

/-- The geometry `rtgui_win_move` leaves, whatever the outcome of the request:
the three rectangles translated by the delta against `move_ref`. -/
theorem rtgui_win_move_geometry (x y : Int) (w : World) :
    (rtgui_win_move x y w).win.extent
      = rtgui_rect_move w.win.extent (x - (move_ref w.win).x1) (y - (move_ref w.win).y1) ∧
    (rtgui_win_move x y w).win.outer_extent
      = rtgui_rect_move w.win.outer_extent (x - (move_ref w.win).x1)
          (y - (move_ref w.win).y1) ∧
    (rtgui_win_move x y w).win._title
      = w.win._title.map (fun t =>
          { t with extent := rtgui_rect_move t.extent (x - (move_ref w.win).x1)
                               (y - (move_ref w.win).y1) }) := by
  unfold rtgui_win_move move_ref
  cases ht : w.win._title <;> cases hc : w.win.flag.CONNECTED <;>
    cases ha : w.pool w.allocs <;>
    simp [RTGUI_CREATE_EVENT, rtgui_send_request_sync, rtgui_widget_hide, rtgui_widget_show,
      hc, ha, ht] <;>
    (by_cases h0 : w.server w.sent = 0 <;> simp [h0])

/-- The visibility `rtgui_win_move` leaves on a CONNECTED window: SHOWN exactly
when the request was made and accepted. -/
theorem rtgui_win_move_shown (x y : Int) (w : World) (hc : w.win.flag.CONNECTED = true) :
    (rtgui_win_move x y w).win.SHOWN = decide (accepts w 0) := by
  unfold rtgui_win_move accepts
  cases ha : w.pool w.allocs <;>
    simp [RTGUI_CREATE_EVENT, rtgui_send_request_sync, rtgui_widget_hide, rtgui_widget_show,
      hc, ha]
  by_cases h0 : w.server w.sent = 0 <;> simp [h0]

/-- What `rtgui_win_update_clip` does to a window that is not CLOSED and has a
title decoration `t`. -/
theorem rtgui_win_update_clip_title (w : World) (t : rtgui_title)
    (h : w.win.flag.CLOSED = false) (ht : w.win._title = some t) :
    (rtgui_win_update_clip w).win._title
      = some { t with extent := w.win.outer_extent,
                      clip := rtgui_region_subtract_rect w.win.outer_clip w.win.extent } ∧
    (rtgui_win_update_clip w).win.clip
      = rtgui_region_intersect_rect w.win.outer_clip w.win.extent ∧
    (rtgui_win_update_clip w).win.outer_clip = w.win.outer_clip ∧
    (rtgui_win_update_clip w).win.extent = w.win.extent := by
  simp [rtgui_win_update_clip, h, ht, rtgui_region_copy]

/-- What `rtgui_win_update_clip` does to a window that is not CLOSED and has no
title decoration. -/
theorem rtgui_win_update_clip_plain (w : World)
    (h : w.win.flag.CLOSED = false) (ht : w.win._title = none) :
    (rtgui_win_update_clip w).win._title = none ∧
    (rtgui_win_update_clip w).win.clip = w.win.outer_clip ∧
    (rtgui_win_update_clip w).win.outer_clip = w.win.outer_clip ∧
    (rtgui_win_update_clip w).win.extent = w.win.outer_extent := by
  simp [rtgui_win_update_clip, h, ht, rtgui_region_copy]

/-- The handling of WIN_DEACTIVATE, for every window: ACTIVATE is cleared, the
title decoration (if any) gets an update request and `on_deactivate` (if
installed) is called. -/
theorem _win_event_handler_deactivate (bits : Nat) (run : World → Option (Int × World))
    (w : World) :
    _win_event_handler bits run rtgui_evt.WIN_DEACTIVATE w
      = some (true,
          { w with
            win.flag.ACTIVATE := false,
            log := w.log ++ (if w.win._title.isSome then [Effect.update_title] else [])
                     ++ (if w.win.on_deactivate then [Effect.on_deactivate] else []) }) := by
  cases ht : w.win._title <;> cases hd : w.win.on_deactivate <;>
    simp [_win_event_handler, rtgui_widget_update_title, ht, hd]

/-- The handling of WIN_ACTIVATE on a SHOWN window outside any modal scope:
ACTIVATE is set, the title decoration (if any) gets an update request and
`on_activate` (if installed) is called. -/
theorem _win_event_handler_activate (bits : Nat) (run : World → Option (Int × World))
    (w : World) (hm : w.win.flag.IN_MODAL = false) (hs : w.win.SHOWN = true) :
    _win_event_handler bits run rtgui_evt.WIN_ACTIVATE w
      = some (true,
          { w with
            win.flag.ACTIVATE := true,
            log := w.log ++ (if w.win._title.isSome then [Effect.update_title] else [])
                     ++ (if w.win.on_activate then [Effect.on_activate] else []) }) := by
  cases ht : w.win._title <;> cases hd : w.win.on_activate <;>
    simp [_win_event_handler, rtgui_widget_update_title, ht, hd, hm, hs]

/-- The handling of WIN_ACTIVATE on a window inside a modal scope or not SHOWN:
nothing happens. -/
theorem _win_event_handler_activate_ignored (bits : Nat)
    (run : World → Option (Int × World)) (w : World)
    (h : w.win.flag.IN_MODAL = true ∨ w.win.SHOWN = false) :
    _win_event_handler bits run rtgui_evt.WIN_ACTIVATE w = some (true, w) := by
  rcases h with h | h <;> simp [_win_event_handler, h]

/-- The function `_win_create_in_server` leaves the rectangles, the clip
regions and the title decoration of the window alone. -/
theorem _win_create_in_server_geometry (w : World) :
    (_win_create_in_server w).2.win.extent = w.win.extent ∧
    (_win_create_in_server w).2.win.outer_extent = w.win.outer_extent ∧
    (_win_create_in_server w).2.win.outer_clip = w.win.outer_clip ∧
    (_win_create_in_server w).2.win._title = w.win._title := by
  unfold _win_create_in_server
  cases hc : w.win.flag.CONNECTED <;> cases ha : w.pool w.allocs <;>
    simp [RTGUI_CREATE_EVENT, rtgui_send_request_sync, hc, ha, RT_EOK, RT_ENOMEM]
  by_cases h0 : w.server w.sent = 0 <;> simp [h0, hc]

/-- The rectangles, the outer clip and the title decoration `rtgui_win_init`
leaves when the title decoration can be created. -/
theorem rtgui_win_init_geometry (bits : Nat) (border height : Int) (parent : Option Nat)
    (r : rtgui_rect) (style : win_style) (w : World) :
    (rtgui_win_init bits border height parent true r style w).2.win.outer_extent
      = (if !style.NO_BORDER || !style.NO_TITLE then
          (if !style.NO_TITLE then
            { (if !style.NO_BORDER then rtgui_rect_inflate r border else r) with
              y1 := (if !style.NO_BORDER then rtgui_rect_inflate r border else r).y1 - height }
           else (if !style.NO_BORDER then rtgui_rect_inflate r border else r))
         else r) ∧
    (rtgui_win_init bits border height parent true r style w).2.win.outer_clip
      = rtgui_region_init_with_extents
          (if !style.NO_BORDER || !style.NO_TITLE then
            (if !style.NO_TITLE then
              { (if !style.NO_BORDER then rtgui_rect_inflate r border else r) with
                y1 := (if !style.NO_BORDER then rtgui_rect_inflate r border else r).y1
                        - height }
             else (if !style.NO_BORDER then rtgui_rect_inflate r border else r))
           else r) ∧
    (rtgui_win_init bits border height parent true r style w).2.win.extent = r ∧
    (rtgui_win_init bits border height parent true r style w).2.win._title
      = (if !style.NO_BORDER || !style.NO_TITLE then
          some
            { extent :=
                (if !style.NO_TITLE then
                  { (if !style.NO_BORDER then rtgui_rect_inflate r border else r) with
                    y1 := (if !style.NO_BORDER then rtgui_rect_inflate r border else r).y1
                            - height }
                 else (if !style.NO_BORDER then rtgui_rect_inflate r border else r)),
              SHOWN := true,
              clip :=
                rtgui_region_subtract_rect
                  (rtgui_region_init_with_extents
                    (if !style.NO_TITLE then
                      { (if !style.NO_BORDER then rtgui_rect_inflate r border else r) with
                        y1 := (if !style.NO_BORDER then rtgui_rect_inflate r border else r).y1
                                - height }
                     else (if !style.NO_BORDER then rtgui_rect_inflate r border else r)))
                  r }
         else w.win._title) := by
  have key : ∀ v : World,
      (if (_win_create_in_server v).1 ≠ 0 then
          ((_win_create_in_server v).1, (_win_create_in_server v).2)
        else ((_win_create_in_server v).1,
          { (_win_create_in_server v).2 with
            app.win_cnt := cnt_inc bits (_win_create_in_server v).2.app.win_cnt })).2.win
        = (_win_create_in_server v).2.win := by
    intro v
    split <;> rfl
  have hwin : ∀ v : World,
      (_win_create_in_server v).2.win.outer_extent = v.win.outer_extent ∧
      (_win_create_in_server v).2.win.outer_clip = v.win.outer_clip ∧
      (_win_create_in_server v).2.win.extent = v.win.extent ∧
      (_win_create_in_server v).2.win._title = v.win._title := by
    intro v
    obtain ⟨a, b, c, d⟩ := _win_create_in_server_geometry v
    exact ⟨b, c, a, d⟩
  unfold rtgui_win_init
  simp only []
  split
  · simp only [Bool.not_true, Bool.false_eq_true, if_false]
    rw [key]
    exact hwin _
  · rw [key]
    exact hwin _

/-- The flat branch of `rtgui_dc_client_blit_line` makes the call the loop
branch makes on the one rectangle `clip.extents`, but for the byte offset,
which it takes from the left edge of the clip against the owner's extent
instead of the clipped start against the start of the request. -/
theorem blit_line_flat_loop (bpp : Int) (owner : rtgui_widget_t) (x1 x2 y : Int) :
    blit_line_flat bpp owner x1 x2 y
      = (blit_line_loop bpp x1 x2 y [owner.clip.extents]).map (fun c =>
          match c with
          | driver_call.draw_raw_hline _ a b r =>
            driver_call.draw_raw_hline ((owner.clip.extents.x1 - owner.extent.x1) * bpp) a b r
          | driver_call.draw_hline k a b r => driver_call.draw_hline k a b r) := by
  simp only [blit_line_flat, blit_line_loop]
  split
  · rfl
  · split <;> rfl

/-- What `rtgui_win_set_rect` does to the window: the extent is the new
rectangle, the flags, the title decoration and `outer_extent` are as before. -/
theorem rtgui_win_set_rect_frame (r : rtgui_rect) (w : World) :
    (rtgui_win_set_rect r w).win.extent = r ∧
    (rtgui_win_set_rect r w).win.flag = w.win.flag ∧
    (rtgui_win_set_rect r w).win._title = w.win._title ∧
    (rtgui_win_set_rect r w).win.outer_extent = w.win.outer_extent := by
  unfold rtgui_win_set_rect
  cases hc : w.win.flag.CONNECTED <;> cases ha : w.pool w.allocs <;>
    simp [RTGUI_CREATE_EVENT, rtgui_send_request, hc, ha]

/-- The function `rtgui_win_update_clip` never writes `outer_extent`. -/
theorem rtgui_win_update_clip_outer_extent (w : World) :
    (rtgui_win_update_clip w).win.outer_extent = w.win.outer_extent := by
  unfold rtgui_win_update_clip
  cases hcl : w.win.flag.CLOSED <;> cases ht : w.win._title <;> simp [hcl, ht]

/-- The gradient loop in closed form: started `n` columns before `x2 + 1`, with
enough fuel, an index that does not wrap and accumulators that stay below
`2 ^ 16`, it draws the `n` columns `index + k` with the channels
`(acc + k * delta) >> 4`. -/
theorem title_gradient_loop_eq (x2 : Int) (delta : Nat) :
    ∀ (n fuel index r g b : Nat), n ≤ fuel → (index : Int) + n = x2 + 1 →
      index + n < 2 ^ 16 → r + n * delta < 2 ^ 16 → g + n * delta < 2 ^ 16 →
      b + n * delta < 2 ^ 16 →
      title_gradient_loop x2 delta fuel index r g b
        = some ((List.range n).map (fun k =>
            ({ index := index + k, red := (r + k * delta) >>> 4,
               green := (g + k * delta) >>> 4, blue := (b + k * delta) >>> 4 } :
              title_column))) := by
  intro n
  induction n with
  | zero =>
    intro fuel index r g b _ hx _ _ _ _
    have hnot : ¬ ((index : Int) < x2 + 1) := by omega
    cases fuel <;> simp [title_gradient_loop, hnot]
  | succ n ih =>
    intro fuel index r g b hf hx hi hr hg hb
    cases fuel with
    | zero => omega
    | succ fuel =>
      have hlt : (index : Int) < x2 + 1 := by omega
      have e1 : (n + 1) * delta = delta + n * delta := by ring
      rw [e1] at hr hg hb
      have hi1 : (index + 1) % 2 ^ 16 = index + 1 := Nat.mod_eq_of_lt (by omega)
      have hr1 : (r + delta) % 2 ^ 16 = r + delta := Nat.mod_eq_of_lt (by omega)
      have hg1 : (g + delta) % 2 ^ 16 = g + delta := Nat.mod_eq_of_lt (by omega)
      have hb1 : (b + delta) % 2 ^ 16 = b + delta := Nat.mod_eq_of_lt (by omega)
      have := ih fuel (index + 1) (r + delta) (g + delta) (b + delta) (by omega)
        (by push_cast; omega) (by omega) (by omega) (by omega) (by omega)
      simp only [title_gradient_loop, hlt, if_true, hi1, hr1, hg1, hb1, this, Option.map_some']
      rw [List.range_succ_eq_map, List.map_cons, List.map_map]
      congr 1
      refine congrArg₂ List.cons ?_ ?_
      · simp
      · apply List.map_congr_left
        intro k _
        simp only [Function.comp, Nat.succ_eq_add_one]
        have a1 : index + 1 + k = index + (k + 1) := by omega
        have a2 : ∀ c : Nat, c + delta + k * delta = c + (k + 1) * delta := by
          intro c; ring
        rw [a1, a2, a2, a2]

/-- The conversion to `rt_uint16_t` keeps a natural number below `2 ^ 16`. -/
theorem to_uint16_natCast (m : Nat) (h : m < 2 ^ 16) : to_uint16 (m : Int) = m := by
  unfold to_uint16
  have : ((m : Int) % 2 ^ 16) = (m : Int) := Int.emod_eq_of_lt (by omega) (by exact_mod_cast h)
  rw [this]
  simp

/-- The steps of a gradient of total rise `c` over `w` columns stay below
`2 * c` even after one step too many. -/
theorem gradient_steps_le (c w : Nat) : (w + 1) * (c / w) ≤ 2 * c := by
  have h1 : w * (c / w) ≤ c := Nat.mul_div_le c w
  have h2 : c / w ≤ c := Nat.div_le_self c w
  have h3 : (w + 1) * (c / w) = w * (c / w) + c / w := by ring
  omega

/-- The gradient block in closed form, for a title bar of width `w >= 1` that
starts at a column `x1 >= 0` and ends below `2 ^ 16 - 1`: there is no division
by zero, the loop ends, no accumulator wraps, and the `w + 1` columns
`x1 + k` get the channels `(start + k * delta) >> 4` with
`delta = (rise << 4) / w`. -/
theorem rtgui_theme_draw_win_gradient_eq (activate : Bool) (x1 w : Nat) (y1 y2 : Int)
    (hw : 1 ≤ w) (hx : x1 + w + 1 < 2 ^ 16) :
    rtgui_theme_draw_win_gradient activate
        { x1 := (x1 : Int), y1 := y1, x2 := (x1 : Int) + (w : Int), y2 := y2 }
      = some ((List.range (w + 1)).map (fun k =>
          ({ index := x1 + k,
             red := ((if activate then 160 else 2048)
                      + k * ((if activate then 2400 else 1024) / w)) >>> 4,
             green := ((if activate then 576 else 2048)
                      + k * ((if activate then 2400 else 1024) / w)) >>> 4,
             blue := ((if activate then 1696 else 2048)
                      + k * ((if activate then 2400 else 1024) / w)) >>> 4 } :
            title_column))) := by
  have hwidth : ((x1 : Int) + (w : Int) - (x1 : Int)) = (w : Int) := by omega
  have hne : ¬ ((w : Int) = 0) := by omega
  have hd : ∀ c : Nat, c < 2 ^ 16 → to_uint16 (Int.tdiv (c : Int) (w : Int)) = c / w := by
    intro c hc
    have : Int.tdiv (c : Int) (w : Int) = ((c / w : Nat) : Int) := by
      rw [Int.tdiv_eq_ediv (by omega) (by omega)]
      norm_cast
    rw [this]
    exact to_uint16_natCast _ (lt_of_le_of_lt (Nat.div_le_self c w) hc)
  have hx1 : to_uint16 (x1 : Int) = x1 := to_uint16_natCast x1 (by omega)
  have s1 := gradient_steps_le 2400 w
  have s2 := gradient_steps_le 1024 w
  unfold rtgui_theme_draw_win_gradient
  simp only [hwidth, hne, if_false, hx1]
  cases activate
  · have e : ((64 <<< 4 : Nat) : Int) = ((1024 : Nat) : Int) := by decide
    simp only [Bool.false_eq_true, if_false, e, hd 1024 (by norm_num)]
    exact title_gradient_loop_eq _ _ (w + 1) (2 ^ 16) x1 _ _ _ (by omega)
      (by push_cast; omega) (by omega) (by norm_num; omega) (by norm_num; omega)
      (by norm_num; omega)
  · have e : ((150 <<< 4 : Nat) : Int) = ((2400 : Nat) : Int) := by decide
    simp only [if_true, e, hd 2400 (by norm_num)]
    exact title_gradient_loop_eq _ _ (w + 1) (2 ^ 16) x1 _ _ _ (by omega)
      (by push_cast; omega) (by omega) (by norm_num; omega) (by norm_num; omega)
      (by norm_num; omega)

/-- The range of the channels of the title gradient on a bar of width
`w >= 1`: red and green are at most 255 and blue is at most 256 in every
column, and blue is at most 255 in the deactivated case. -/
theorem rtgui_theme_draw_win_gradient_range (activate : Bool) (x1 w : Nat) (y1 y2 : Int)
    (hw : 1 ≤ w) (hx : x1 + w + 1 < 2 ^ 16) :
    ∃ l, rtgui_theme_draw_win_gradient activate
          { x1 := (x1 : Int), y1 := y1, x2 := (x1 : Int) + (w : Int), y2 := y2 } = some l ∧
      l.length = w + 1 ∧
      ∀ c ∈ l, c.red ≤ 255 ∧ c.green ≤ 255 ∧ c.blue ≤ 256 ∧
        (activate = false → c.blue ≤ 255) := by
  refine ⟨_, rtgui_theme_draw_win_gradient_eq activate x1 w y1 y2 hw hx, by simp, ?_⟩
  intro c hc
  simp only [List.mem_map, List.mem_range] at hc
  obtain ⟨k, hk, rfl⟩ := hc
  have hstep : ∀ C : Nat, k * (C / w) ≤ C := by
    intro C
    calc k * (C / w) ≤ w * (C / w) := Nat.mul_le_mul_right _ (by omega)
      _ ≤ C := Nat.mul_div_le C w
  have h1 := hstep 2400
  have h2 := hstep 1024
  cases activate <;>
    simp only [Bool.false_eq_true, if_false, if_true, Nat.shiftRight_eq_div_pow] <;>
    refine ⟨?_, ?_, ?_, ?_⟩ <;> first | omega | (intro h; first | omega | cases h)

/-- On an activated title bar whose width `w` divides 2400 the last column,
`x1 + w`, is drawn with blue 256. -/
theorem rtgui_theme_draw_win_gradient_last (x1 w : Nat) (y1 y2 : Int)
    (hw : 1 ≤ w) (hx : x1 + w + 1 < 2 ^ 16) (hdvd : w ∣ 2400) :
    ∃ l, rtgui_theme_draw_win_gradient true
          { x1 := (x1 : Int), y1 := y1, x2 := (x1 : Int) + (w : Int), y2 := y2 } = some l ∧
      ({ index := x1 + w, red := 160, green := 186, blue := 256 } : title_column) ∈ l := by
  refine ⟨_, rtgui_theme_draw_win_gradient_eq true x1 w y1 y2 hw hx, ?_⟩
  simp only [List.mem_map, List.mem_range]
  refine ⟨w, by omega, ?_⟩
  have hm : w * (2400 / w) = 2400 := Nat.mul_div_cancel' hdvd
  simp only [if_true, hm, Nat.shiftRight_eq_div_pow]

/-- The KBD case in key handling mode: a window without `on_key` callback makes
the call through the null pointer, a window with one returns true without
calling it and without any other change. -/
theorem _win_event_handler_kbd_key_mode (bits : Nat) (run : World → Option (Int × World))
    (w : World) (h : w.win.flag.HANDLE_KEY = true) :
    _win_event_handler bits run rtgui_evt.KBD w
      = if w.win.on_key.isNone then none else some (true, w) := by
  simp only [_win_event_handler, h, Bool.not_true, Bool.false_eq_true, if_false,
    _win_kbd_handle_key, call_on_key]
  cases hk : w.win.on_key <;> simp

/-- The KBD case in dispatch mode: when the handler returns, the flags of the
window are those from before the event, so HANDLE_KEY is clear again. -/
theorem _win_event_handler_kbd_dispatch_mode (bits : Nat)
    (run : World → Option (Int × World)) (w : World) (r : Bool × World)
    (h : w.win.flag.HANDLE_KEY = false)
    (hr : _win_event_handler bits run rtgui_evt.KBD w = some r) :
    r.2.win.flag = w.win.flag := by
  simp only [_win_event_handler, h, Bool.not_false, if_true] at hr
  cases hd : _win_kbd_dispatch
      (key_chain ({ w with win.flag.HANDLE_KEY := true } : World).win) true
      { w with win.flag.HANDLE_KEY := true } with
  | none => simp [hd] at hr
  | some r1 =>
    simp [hd] at hr
    rw [← hr]
    have hf := _win_kbd_dispatch_flag _ true _ r1 hd
    simp only [hf]
    cases hfl : w.win.flag
    simp only [hfl] at h
    simp [h]

/-- The dispatch loop over widgets below the window: the state is unchanged,
and the result is true as soon as one event handler returns true, false when
handlers were called and none did, and the `done` it was entered with when no
widget has a handler. -/
theorem _win_kbd_dispatch_widgets (l : List (Option Bool)) :
    ∀ (done : Bool) (w : World),
      _win_kbd_dispatch (l.map key_target.widget) done w
        = some (if some true ∈ l then true
                else if some false ∈ l then false else done, w) := by
  induction l with
  | nil => intro done w; simp [_win_kbd_dispatch]
  | cons a l ih =>
    intro done w
    cases a with
    | none => simp [_win_kbd_dispatch, ih]
    | some d =>
      cases d
      · simp only [List.map_cons, _win_kbd_dispatch, Bool.false_eq_true, if_false, ih,
          List.mem_cons, Option.some.injEq, true_or, if_true]
        by_cases ht : some true ∈ l <;> simp [ht]
      · simp [_win_kbd_dispatch]

/-! ## Claims -/

/-- C1: when the close callback returns false and `force` is false,
`_win_do_close` returns false and leaves the whole state as it was: no request
is sent (the trace is unchanged), the flags (SHOWN, CLOSED, MODAL) and the
application's `win_cnt` are untouched; the same holds for the `WIN_CLOSE` case
of the event handler, which drives it. -/
theorem C1_close_veto_aborts (bits : Nat) (run : World → Option (Int × World)) (w : World)
    (h : w.win.on_close = some false) :
    _win_do_close bits false w = some (false, w) ∧
    _win_event_handler bits run rtgui_evt.WIN_CLOSE w = some (true, w) := by
  simp [_win_event_handler, _win_do_close, h]

/-- Witness of C1 on a shown, connected window whose callback declines. -/
theorem C1_close_veto_aborts_witness :
    ({ shown_world (fun _ => 0) with win.on_close := some false } : World).win.on_close
        = some false ∧
    (_win_do_close 16 false { shown_world (fun _ => 0) with win.on_close := some false }
        = some (false, { shown_world (fun _ => 0) with win.on_close := some false }) ∧
     _win_event_handler 16 idle_run rtgui_evt.WIN_CLOSE
        { shown_world (fun _ => 0) with win.on_close := some false }
        = some (true, { shown_world (fun _ => 0) with win.on_close := some false })) :=
  ⟨rfl, C1_close_veto_aborts 16 idle_run _ rfl⟩

/-- C2 (counterexample): the connected, hidden window of `stale_modal_world`
still has the MODAL flag of an earlier modal show that the server rejected.
Shown with `rtgui_win_show(win, RT_FALSE)`, every request accepted, it enters
the modal sub-protocol all the same: the call sends WIN_SHOW, WIN_MODAL_ENTER
and, after the nested loop, WIN_HIDE, and returns `RT_EOK` with the window
CONNECTED but not SHOWN. -/
theorem C2_show_with_stale_modal :
    (stale_modal_world.win.flag.MODAL, stale_modal_world.win.flag.CONNECTED,
        stale_modal_world.win.SHOWN) = (true, true, false) ∧
    (accepts stale_modal_world 0 ∧ accepts stale_modal_world 1 ∧
      accepts stale_modal_world 2) ∧
    (rtgui_win_show 16 idle_run false stale_modal_world).map
        (fun r => (r.1, r.2.win.flag.CONNECTED, r.2.win.SHOWN, r.2.win.flag.CLOSED,
          r.2.log.drop stale_modal_world.log.length))
      = some (RT_EOK, true, false, false,
          [Effect.request rtgui_request.WIN_SHOW, Effect.focus,
           Effect.request rtgui_request.WIN_MODAL_ENTER,
           Effect.request rtgui_request.WIN_HIDE]) := by
  decide

/-- C2 (amended): `rtgui_win_show(win, RT_FALSE)` on a window whose MODAL flag
is clear, whose `WIN_CREATE` request (sent when the window is not yet
CONNECTED) and `WIN_SHOW` request are accepted, returns `RT_EOK`; afterwards the
window is CONNECTED and SHOWN and not CLOSED, it is the application's main
window if there was none, and an existing main window is kept. -/
theorem C2_show_non_modal (bits : Nat) (run : World → Option (Int × World)) (w : World)
    (hm : w.win.flag.MODAL = false) (h0 : accepts w 0)
    (h1 : w.win.flag.CONNECTED = false → accepts w 1) :
    ∃ w', rtgui_win_show bits run false w = some (RT_EOK, w') ∧
      w'.win.flag.CONNECTED = true ∧ w'.win.SHOWN = true ∧ w'.win.flag.CLOSED = false ∧
      (w.app.main_win = none → w'.app.main_win = some w.win.wid) ∧
      (w.app.main_win ≠ none → w'.app.main_win = w.app.main_win) := by
  obtain ⟨ha0, hs0⟩ := h0
  simp only [Nat.add_zero] at ha0 hs0
  cases hc : w.win.flag.CONNECTED
  · obtain ⟨ha1, hs1⟩ := h1 hc
    cases hf : w.win.focused <;> cases hmw : w.app.main_win <;>
      simp [rtgui_win_show, _win_do_show, _win_do_show_notify, _win_create_in_server,
        RTGUI_CREATE_EVENT, rtgui_send_request_sync, rtgui_widget_show, rtgui_widget_focus,
        RT_EOK, hm, hc, ha0, hs0, ha1, hs1, hf, hmw]
  · cases hf : w.win.focused <;> cases hmw : w.app.main_win <;>
      simp [rtgui_win_show, _win_do_show, _win_do_show_notify, RTGUI_CREATE_EVENT,
        rtgui_send_request_sync, rtgui_widget_show, rtgui_widget_focus, RT_EOK,
        hm, hc, ha0, hs0, hf, hmw]

/-- Witness of C2 (amended) on a fresh window with a server that accepts
everything. -/
theorem C2_show_non_modal_witness :
    (fresh_world (fun _ => 0)).win.flag.MODAL = false ∧ accepts (fresh_world (fun _ => 0)) 0 ∧
    ∃ w', rtgui_win_show 16 idle_run false (fresh_world (fun _ => 0)) = some (RT_EOK, w') ∧
      w'.win.flag.CONNECTED = true ∧ w'.win.SHOWN = true ∧ w'.win.flag.CLOSED = false ∧
      ((fresh_world (fun _ => 0)).app.main_win = none →
        w'.app.main_win = some (fresh_world (fun _ => 0)).win.wid) ∧
      ((fresh_world (fun _ => 0)).app.main_win ≠ none →
        w'.app.main_win = (fresh_world (fun _ => 0)).app.main_win) :=
  ⟨rfl, by decide,
    C2_show_non_modal 16 idle_run (fresh_world (fun _ => 0)) rfl (by decide)
      (fun _ => by decide)⟩

/-- C3: on a CONNECTED window, when the server answers the `WIN_SHOW` request
with a non-zero code `e`, `rtgui_win_show` returns `e`; afterwards SHOWN is
clear, the focused widget and the application (its main window, its nested-run
counter) are as before, the recorded `_ref_count` is untouched and the only
request sent is `WIN_SHOW` (no `WIN_MODAL_ENTER`, no focus call). -/
theorem C3_show_rejected (bits : Nat) (run : World → Option (Int × World)) (is_modal : Bool)
    (w : World) (e : Int) (hc : w.win.flag.CONNECTED = true)
    (ha : w.pool w.allocs = true) (hs : w.server w.sent = e) (he : e ≠ 0) :
    ∃ w', rtgui_win_show bits run is_modal w = some (e, w') ∧
      w'.win.SHOWN = false ∧ w'.win.focused = w.win.focused ∧ w'.app = w.app ∧
      w'.win._ref_count = w.win._ref_count ∧
      w'.log = w.log ++ [Effect.request rtgui_request.WIN_SHOW] := by
  cases is_modal <;>
    simp [rtgui_win_show, _win_do_show, _win_do_show_notify, RTGUI_CREATE_EVENT,
      rtgui_send_request_sync, rtgui_widget_show, rtgui_widget_hide, hc, ha, hs, he]

/-- Witness of C3 on a connected, hidden window whose `WIN_SHOW` is answered
with -1. -/
theorem C3_show_rejected_witness :
    (hidden_world (fun _ => -1)).win.flag.CONNECTED = true ∧
    ∃ w', rtgui_win_show 16 idle_run true (hidden_world (fun _ => -1)) = some (-1, w') ∧
      w'.win.SHOWN = false ∧ w'.win.focused = (hidden_world (fun _ => -1)).win.focused ∧
      w'.app = (hidden_world (fun _ => -1)).app ∧
      w'.win._ref_count = (hidden_world (fun _ => -1)).win._ref_count ∧
      w'.log = (hidden_world (fun _ => -1)).log ++ [Effect.request rtgui_request.WIN_SHOW] :=
  ⟨rfl, C3_show_rejected 16 idle_run true (hidden_world (fun _ => -1)) (-1) rfl rfl rfl
    (by decide)⟩

/-- C4 (the code at the failing inputs): a failed `rtgui_win_show` does not
always leave the flags as they were.  On a hidden, unconnected window whose
`WIN_CREATE` is rejected with -1 the call returns -1 with SHOWN set; on a
hidden, connected window for whose `WIN_SHOW` no event record is available it
returns `-RT_ENOMEM` with SHOWN set; with `is_modal` and a rejected `WIN_SHOW`
it returns -1 with MODAL set.  Only the rejected-`WIN_SHOW` path rolls SHOWN
back (last conjunct). -/
theorem C4_failed_show_keeps_flags :
    (fresh_world (fun _ => -1)).win.SHOWN = false ∧
    (rtgui_win_show 16 idle_run false (fresh_world (fun _ => -1))).map
        (fun r => (r.1, r.2.win.SHOWN, r.2.win.flag.CONNECTED)) = some (-1, true, false) ∧
    (rtgui_win_show 16 idle_run false
        { hidden_world (fun _ => 0) with pool := fun _ => false }).map
        (fun r => (r.1, r.2.win.SHOWN, r.2.win.flag.CONNECTED)) = some (-RT_ENOMEM, true, true) ∧
    (hidden_world (fun _ => -1)).win.flag.MODAL = false ∧
    (rtgui_win_show 16 idle_run true (hidden_world (fun _ => -1))).map
        (fun r => (r.1, r.2.win.SHOWN, r.2.win.flag.MODAL)) = some (-1, false, true) ∧
    (rtgui_win_show 16 idle_run false (hidden_world (fun _ => -1))).map
        (fun r => (r.1, r.2.win.SHOWN, r.2.win.flag.MODAL)) = some (-1, false, false) := by
  decide

/-- C5 (counterexample): `rtgui_win_move` applied to a freshly constructed
window (not CONNECTED, not SHOWN) leaves it SHOWN and not CONNECTED. -/
theorem C5_move_shows_unconnected :
    (fresh_world (fun _ => 0)).win.flag.CONNECTED = false ∧
    (fresh_world (fun _ => 0)).win.SHOWN = false ∧
    (run_ops 16 1 20 idle_run [win_op.op_move 3 4] (fresh_world (fun _ => 0))).map
        (fun w => (w.win.SHOWN, w.win.flag.CONNECTED)) = some (true, false) := by
  decide

/-- C5 (amended): starting from a window that is not SHOWN (a freshly
constructed window, not CONNECTED and not SHOWN, is one), after every sequence
of init, show, hide, move and close operations in which each move is applied
to a CONNECTED window and each show to a CONNECTED window or with its
`WIN_CREATE` request accepted (`guarded`), with any other server replies and
any nested modal loop that does not disconnect the window (nothing in window.c
clears CONNECTED; `rtgui_app_run_model` is such a loop), a window that is SHOWN
is CONNECTED. -/
theorem C5_shown_implies_connected (bits : Nat) (border height : Int)
    (run : World → Option (Int × World))
    (hrun : ∀ v r, v.win.flag.CONNECTED = true → run v = some r →
      r.2.win.flag.CONNECTED = true)
    (ops : List win_op) (w w' : World) (hs : w.win.SHOWN = false)
    (hg : guarded bits border height run ops w = true)
    (h : run_ops bits border height run ops w = some w') :
    w'.win.SHOWN = true → w'.win.flag.CONNECTED = true := by
  have h0 : shown_connected w := by
    intro h1; rw [hs] at h1; cases h1
  exact run_ops_shown_connected bits border height run hrun ops w w' h0 hg h

/-- Witness of C5: init, a modal show whose nested loop moves and closes the
window, then move, hide and show end in a SHOWN and CONNECTED window. -/
theorem C5_shown_implies_connected_witness :
    sample_start.win.flag.CONNECTED = false ∧ sample_start.win.SHOWN = false ∧
    guarded 16 1 20 (rtgui_app_run_model 16 2) sample_ops sample_start = true ∧
    run_ops 16 1 20 (rtgui_app_run_model 16 2) sample_ops sample_start = some sample_final ∧
    sample_final.win.SHOWN = true ∧ sample_final.win.flag.CONNECTED = true :=
  ⟨by decide, by decide, by decide, rfl, by decide,
    C5_shown_implies_connected 16 1 20 (rtgui_app_run_model 16 2)
      (rtgui_app_run_model_connected 16 2) sample_ops sample_start sample_final
      (by decide) (by decide) rfl (by decide)⟩

/-- C6 (counterexample): a SHOWN and CONNECTED window for whose `WIN_HIDE` no
event record is available: `rtgui_win_hide` sends no request. -/
theorem C6_hide_without_event_record :
    ({ shown_world (fun _ => 0) with pool := fun _ => false } : World).win.SHOWN = true ∧
    ({ shown_world (fun _ => 0) with pool := fun _ => false } : World).win.flag.CONNECTED
        = true ∧
    (rtgui_win_hide { shown_world (fun _ => 0) with pool := fun _ => false }).log = [] := by
  decide

/-- C6 (amended): `rtgui_win_hide` sends a `WIN_HIDE` request exactly when the
window is SHOWN and CONNECTED and an event record is available, and sends
nothing otherwise; when the window is not both SHOWN and CONNECTED the state is
unchanged; unless the request is sent and accepted the window is unchanged;
when it is accepted SHOWN and ACTIVATE are clear afterwards and every other
window flag is as before. -/
theorem C6_hide (w : World) :
    ((rtgui_win_hide w).log = w.log ++ [Effect.request rtgui_request.WIN_HIDE] ↔
      (w.win.SHOWN = true ∧ w.win.flag.CONNECTED = true ∧ w.pool w.allocs = true)) ∧
    (¬ (w.win.SHOWN = true ∧ w.win.flag.CONNECTED = true ∧ w.pool w.allocs = true) →
      (rtgui_win_hide w).log = w.log) ∧
    (¬ (w.win.SHOWN = true ∧ w.win.flag.CONNECTED = true) → rtgui_win_hide w = w) ∧
    (¬ (w.win.SHOWN = true ∧ w.win.flag.CONNECTED = true ∧ accepts w 0) →
      (rtgui_win_hide w).win = w.win) ∧
    (w.win.SHOWN = true ∧ w.win.flag.CONNECTED = true ∧ accepts w 0 →
      (rtgui_win_hide w).win.SHOWN = false ∧
      (rtgui_win_hide w).win.flag = { w.win.flag with ACTIVATE := false }) := by
  unfold rtgui_win_hide accepts
  cases hs : w.win.SHOWN <;> cases hc : w.win.flag.CONNECTED <;>
    cases ha : w.pool w.allocs <;>
    simp [RTGUI_CREATE_EVENT, rtgui_send_request_sync, rtgui_widget_hide, hs, hc, ha]
  by_cases h0 : w.server w.sent = 0 <;> simp [h0, hs]

/-- Witness of C6 on a shown, connected window: the request is accepted. -/
theorem C6_hide_witness :
    (rtgui_win_hide (shown_world (fun _ => 0))).win.SHOWN = false ∧
    (rtgui_win_hide (shown_world (fun _ => 0))).win.flag =
      { (shown_world (fun _ => 0)).win.flag with ACTIVATE := false } :=
  (C6_hide (shown_world (fun _ => 0))).2.2.2.2 (by decide)

/-- C7: a close of a non-modal window that is not aborted (no callback, the
callback accepts, or `force`) returns with the application's `win_cnt`
decremented once (`win_cnt--` on the unsigned counter: one less whenever the
count was positive), and `rtgui_app_exit` is called, once and with code 0,
exactly when the decremented count is zero and KEEP is not set; no other exit
is requested. -/
theorem C7_close_win_cnt (bits : Nat) (force : Bool) (w : World)
    (hm : w.win.flag.MODAL = false)
    (hna : w.win.on_close = none ∨ w.win.on_close = some true ∨ force = true) :
    ∃ done w', _win_do_close bits force w = some (done, w') ∧
      w'.app.win_cnt = cnt_dec bits w.app.win_cnt ∧
      (0 < w.app.win_cnt → w.app.win_cnt < 2 ^ bits → w'.app.win_cnt + 1 = w.app.win_cnt) ∧
      exits w'.log = exits w.log ++
        (if w'.app.win_cnt = 0 ∧ w.app.KEEP = false then [0] else []) := by
  generalize hw2 : ({ rtgui_win_hide w with win.flag.CLOSED := true } : World) = w2
  obtain ⟨done, hd⟩ := _win_do_close_not_aborted bits force w w2 hna hw2.symm
  obtain ⟨happ, hex, hmod, _⟩ := closed_after_hide w w2 hw2.symm
  rw [hm] at hmod
  simp only [hmod] at hd
  obtain ⟨f1, f2, _, _⟩ := _win_do_close_finish_frame bits w2
  rw [happ] at f1 f2
  rw [hex] at f2
  refine ⟨done, _, hd, f1, ?_, ?_⟩
  · intro h0 h1
    rw [f1, cnt_dec_pos _ _ h0 h1]; omega
  · rw [f2, f1]

/-- Witness of C7 on the last shown window of an application. -/
theorem C7_close_win_cnt_witness :
    (shown_world (fun _ => 0)).win.flag.MODAL = false ∧
    ∃ done w', _win_do_close 16 false (shown_world (fun _ => 0)) = some (done, w') ∧
      w'.app.win_cnt = cnt_dec 16 (shown_world (fun _ => 0)).app.win_cnt ∧
      (0 < (shown_world (fun _ => 0)).app.win_cnt →
        (shown_world (fun _ => 0)).app.win_cnt < 2 ^ 16 →
        w'.app.win_cnt + 1 = (shown_world (fun _ => 0)).app.win_cnt) ∧
      exits w'.log = exits (shown_world (fun _ => 0)).log ++
        (if w'.app.win_cnt = 0 ∧ (shown_world (fun _ => 0)).app.KEEP = false then [0]
         else []) :=
  ⟨rfl, C7_close_win_cnt 16 false (shown_world (fun _ => 0)) rfl (Or.inl rfl)⟩

/-- C8 (counterexample): a SHOWN and CONNECTED window without callback whose
`WIN_HIDE` request the server rejects: after `_win_do_close` it is CLOSED and
still SHOWN. -/
theorem C8_close_with_rejected_hide :
    (_win_do_close 16 false (shown_world (fun _ => -1))).map
        (fun r => (r.1, r.2.win.SHOWN, r.2.win.flag.CLOSED)) = some (true, true, true) := by
  decide

/-- C8 (amended): a close that is not aborted, with the modal unwind under the
1000-round limit, returns with CLOSED set; the window is hidden (SHOWN clear)
exactly when it was not SHOWN before or it was CONNECTED and its `WIN_HIDE`
request got an event record and was accepted; MODAL is clear afterwards, and
if the window had MODAL the exits requested are those of `rtgui_win_end_modal`
(the unwinding exits with code 0, then `RTGUI_MODAL_CANCEL`), followed only by
the exit for the last window. -/
theorem C8_close_marks_closed (bits : Nat) (force : Bool) (w : World)
    (hna : w.win.on_close = none ∨ w.win.on_close = some true ∨ force = true)
    (hr : w.app.ref_cnt < 2 ^ bits)
    (hk : w.win.flag.MODAL = true → w.app.ref_cnt - w.win._ref_count < 1000) :
    ∃ done w', _win_do_close bits force w = some (done, w') ∧
      w'.win.flag.CLOSED = true ∧
      (w'.win.SHOWN = false ↔
        (w.win.SHOWN = false ∨ (w.win.flag.CONNECTED = true ∧ accepts w 0))) ∧
      w'.win.flag.MODAL = false ∧
      (w.win.flag.MODAL = true →
        exits w'.log = exits w.log ++ List.replicate (w.app.ref_cnt - w.win._ref_count) 0
          ++ [RTGUI_MODAL_CANCEL]
          ++ (if w'.app.win_cnt = 0 ∧ w.app.KEEP = false then [0] else [])) := by
  generalize hw2 : ({ rtgui_win_hide w with win.flag.CLOSED := true } : World) = w2
  obtain ⟨done, hd⟩ := _win_do_close_not_aborted bits force w w2 hna hw2.symm
  obtain ⟨happ, hex, hmod, hrc, hcl, _, hsh, _, _⟩ := closed_after_hide w w2 hw2.symm
  cases hm : w.win.flag.MODAL
  · rw [hm] at hmod
    simp only [hmod] at hd
    obtain ⟨_, _, f3, f4⟩ := _win_do_close_finish_frame bits w2
    refine ⟨done, _, hd, by rw [f4]; exact hcl, by rw [f3]; exact hsh,
      by rw [f4]; exact hmod, ?_⟩
    intro h; cases h
  · rw [hm] at hmod
    obtain ⟨w3, e1, e2, _, e4, e5, _, e7, _⟩ :=
      rtgui_win_end_modal_spec bits RTGUI_MODAL_CANCEL w2 hmod
        (by rw [happ]; exact hr) (by rw [happ, hrc]; exact hk hm)
    simp only [hmod, if_true, e1] at hd
    obtain ⟨f1, f2, f3, f4⟩ := _win_do_close_finish_frame bits w3
    refine ⟨done, _, hd, by rw [f4, e2]; exact hcl, by rw [f3, e2]; exact hsh,
      by rw [f4, e2], ?_⟩
    intro _
    rw [f2, f1, e7, e4, e5, happ, hrc]
    simp [exits_append, exits_replicate, exits, hex]

/-- Witness of C8 on a window inside its modal loop. -/
theorem C8_close_marks_closed_witness :
    modal_world.win.flag.MODAL = true ∧ modal_world.app.ref_cnt < 2 ^ 16 ∧
    ∃ done w', _win_do_close 16 true modal_world = some (done, w') ∧
      w'.win.flag.CLOSED = true ∧
      (w'.win.SHOWN = false ↔
        (modal_world.win.SHOWN = false ∨
          (modal_world.win.flag.CONNECTED = true ∧ accepts modal_world 0))) ∧
      w'.win.flag.MODAL = false ∧
      (modal_world.win.flag.MODAL = true →
        exits w'.log = exits modal_world.log ++
          List.replicate (modal_world.app.ref_cnt - modal_world.win._ref_count) 0
          ++ [RTGUI_MODAL_CANCEL]
          ++ (if w'.app.win_cnt = 0 ∧ modal_world.app.KEEP = false then [0] else [])) :=
  ⟨by decide, by decide,
    C8_close_marks_closed 16 true modal_world (Or.inl rfl) (by decide) (fun _ => by decide)⟩

/-- C9: on a MODAL window that recorded `_ref_count = n + 1` while the
application's nested-run counter is `n + 1 + k` with `k < 1000` (a value the
counter can hold), `rtgui_win_end_modal(win, code)` returns (the assertion is
not reached) after exactly `k` exits with code 0 followed by one exit with
`code` and nothing else; the counter is `n` afterwards (each exit lowered it by
one without wrapping below zero) and MODAL is clear. -/
theorem C9_end_modal_restores (bits : Nat) (w : World) (n k : Nat) (code : Int)
    (hm : w.win.flag.MODAL = true) (hrc : w.win._ref_count = n + 1)
    (hc : w.app.ref_cnt = n + 1 + k) (hk : k < 1000) (hb : n + 1 + k < 2 ^ bits) :
    ∃ w', rtgui_win_end_modal bits code w = some w' ∧
      w'.log = w.log ++ List.replicate k (Effect.app_exit 0) ++ [Effect.app_exit code] ∧
      w'.app.ref_cnt = n ∧ w'.win.flag.MODAL = false := by
  have hd : w.app.ref_cnt - w.win._ref_count = k := by omega
  obtain ⟨w', h1, h2, h3, _, _, _, h7, _⟩ :=
    rtgui_win_end_modal_spec bits code w hm (by omega) (by omega)
  refine ⟨w', h1, by rw [h7, hd], ?_, by rw [h2]⟩
  rw [h3, hd, cnt_dec_pos _ _ (by omega) (by omega)]
  omega

/-- Witness of C9: the modal loop entered at counter 1, two more nested runs
entered since (`n = 1`, `k = 2`). -/
theorem C9_end_modal_restores_witness :
    (rtgui_app_run_enter 16 (rtgui_app_run_enter 16 modal_world)).win.flag.MODAL = true ∧
    (rtgui_app_run_enter 16 (rtgui_app_run_enter 16 modal_world)).win._ref_count = 1 + 1 ∧
    (rtgui_app_run_enter 16 (rtgui_app_run_enter 16 modal_world)).app.ref_cnt = 1 + 1 + 2 ∧
    ∃ w', rtgui_win_end_modal 16 RTGUI_MODAL_OK
        (rtgui_app_run_enter 16 (rtgui_app_run_enter 16 modal_world)) = some w' ∧
      w'.log = (rtgui_app_run_enter 16 (rtgui_app_run_enter 16 modal_world)).log
        ++ List.replicate 2 (Effect.app_exit 0) ++ [Effect.app_exit RTGUI_MODAL_OK] ∧
      w'.app.ref_cnt = 1 ∧ w'.win.flag.MODAL = false :=
  ⟨by decide, by decide, by decide,
    C9_end_modal_restores 16 (rtgui_app_run_enter 16 (rtgui_app_run_enter 16 modal_world))
      1 2 RTGUI_MODAL_OK (by decide) (by decide) (by decide) (by decide) (by decide)⟩

/-- C10 (the code at the failing input): `rtgui_win_uninit` on a window inside
its modal loop (MODAL, not CLOSED, no DESTROY_ON_CLOSE style, shown and
connected).  The forced close already unwinds the modal loop and clears MODAL,
so the MODAL test of `rtgui_win_uninit` fails and `DELETE_INSTANCE` runs: the
instance is freed inside the call and DESTROY_ON_CLOSE is never set. -/
theorem C10_uninit_frees_modal_window :
    modal_world.win.flag.MODAL = true ∧ modal_world.win.flag.CLOSED = false ∧
    modal_world.win.style.DESTROY_ON_CLOSE = false ∧ modal_world.win.deleted = false ∧
    (rtgui_win_uninit 16 modal_world).map
        (fun w => (w.win.deleted, w.win.style.DESTROY_ON_CLOSE, w.win.flag.MODAL, w.log)) =
      some (true, false, false,
        [Effect.request rtgui_request.WIN_HIDE, Effect.app_exit RTGUI_MODAL_CANCEL,
         Effect.app_exit 0, Effect.request rtgui_request.WIN_DESTROY, Effect.delete]) := by
  decide

/-- C11: for every window and every target `(x, y)`, `rtgui_win_move` applies
one delta `(dx, dy) = (x - ref.x1, y - ref.y1)`, where `ref` is the extent of
the title decoration if the window has one and the content extent otherwise,
to the content extent, the title extent (if any) and `outer_extent`; so the
widths and heights of the three rectangles are preserved, the top-left corner
of the reference rectangle becomes `(x, y)` and the offset between content and
decoration is unchanged.  This holds whatever the outcome of the MOVE
request. -/
theorem C11_move_translates (x y : Int) (w : World) :
    (rtgui_win_move x y w).win.extent
      = rtgui_rect_move w.win.extent (x - (move_ref w.win).x1) (y - (move_ref w.win).y1) ∧
    (rtgui_win_move x y w).win.outer_extent
      = rtgui_rect_move w.win.outer_extent (x - (move_ref w.win).x1)
          (y - (move_ref w.win).y1) ∧
    (rtgui_win_move x y w).win._title.map (fun t => t.extent)
      = w.win._title.map (fun t =>
          rtgui_rect_move t.extent (x - (move_ref w.win).x1) (y - (move_ref w.win).y1)) ∧
    ((rtgui_win_move x y w).win.extent.x2 - (rtgui_win_move x y w).win.extent.x1
        = w.win.extent.x2 - w.win.extent.x1 ∧
      (rtgui_win_move x y w).win.extent.y2 - (rtgui_win_move x y w).win.extent.y1
        = w.win.extent.y2 - w.win.extent.y1) ∧
    ((rtgui_win_move x y w).win.outer_extent.x2 - (rtgui_win_move x y w).win.outer_extent.x1
        = w.win.outer_extent.x2 - w.win.outer_extent.x1 ∧
      (rtgui_win_move x y w).win.outer_extent.y2 - (rtgui_win_move x y w).win.outer_extent.y1
        = w.win.outer_extent.y2 - w.win.outer_extent.y1) ∧
    ((move_ref (rtgui_win_move x y w).win).x2 - (move_ref (rtgui_win_move x y w).win).x1
        = (move_ref w.win).x2 - (move_ref w.win).x1 ∧
      (move_ref (rtgui_win_move x y w).win).y2 - (move_ref (rtgui_win_move x y w).win).y1
        = (move_ref w.win).y2 - (move_ref w.win).y1) ∧
    ((move_ref (rtgui_win_move x y w).win).x1 = x ∧
      (move_ref (rtgui_win_move x y w).win).y1 = y) ∧
    ((rtgui_win_move x y w).win.extent.x1 - (move_ref (rtgui_win_move x y w).win).x1
        = w.win.extent.x1 - (move_ref w.win).x1 ∧
      (rtgui_win_move x y w).win.extent.y1 - (move_ref (rtgui_win_move x y w).win).y1
        = w.win.extent.y1 - (move_ref w.win).y1) := by
  obtain ⟨he, ho, ht⟩ := rtgui_win_move_geometry x y w
  have hr : move_ref (rtgui_win_move x y w).win
      = rtgui_rect_move (move_ref w.win) (x - (move_ref w.win).x1)
          (y - (move_ref w.win).y1) := by
    unfold move_ref at *
    rw [ht, he]
    cases w.win._title <;> rfl
  refine ⟨he, ho, ?_, ?_, ?_, ?_, ?_, ?_⟩
  · rw [ht]; cases w.win._title <;> rfl
  · rw [he]; simp only [rtgui_rect_move]; omega
  · rw [ho]; simp only [rtgui_rect_move]; omega
  · rw [hr]; simp only [rtgui_rect_move]; omega
  · rw [hr]; simp only [rtgui_rect_move]; omega
  · rw [hr, he]; simp only [rtgui_rect_move]; omega

/-- C12 (counterexample): a shown, connected window with a title decoration
whose MOVE request the server rejects.  After `rtgui_win_move` to (30, 40) the
window is hidden and its content extent, title extent and `outer_extent` hold
the moved values, not the ones from before the call. -/
theorem C12_rejected_move_not_rolled_back :
    rejecting_world.win.flag.CONNECTED = true ∧
    rejecting_world.server rejecting_world.sent = -1 ∧
    (rejecting_world.win.SHOWN, rejecting_world.win.extent,
        rejecting_world.win._title.map (fun t => t.extent), rejecting_world.win.outer_extent)
      = (true, { x1 := 10, y1 := 10, x2 := 110, y2 := 60 },
          some { x1 := 9, y1 := -11, x2 := 111, y2 := 61 },
          { x1 := 9, y1 := -11, x2 := 111, y2 := 61 }) ∧
    ((rtgui_win_move 30 40 rejecting_world).win.SHOWN,
        (rtgui_win_move 30 40 rejecting_world).win.extent,
        (rtgui_win_move 30 40 rejecting_world).win._title.map (fun t => t.extent),
        (rtgui_win_move 30 40 rejecting_world).win.outer_extent)
      = (false, { x1 := 31, y1 := 61, x2 := 131, y2 := 111 },
          some { x1 := 30, y1 := 40, x2 := 132, y2 := 112 },
          { x1 := 30, y1 := 40, x2 := 132, y2 := 112 }) := by
  decide

/-- C12 (amended): on a CONNECTED window whose MOVE request fails (no event
record, or the server rejects the request) `rtgui_win_move` restores nothing:
the window is left not SHOWN, and the content extent, the title extent (if
any) and `outer_extent` keep the values translated by the delta of the move. -/
theorem C12_failed_move_keeps_changes (x y : Int) (w : World)
    (hc : w.win.flag.CONNECTED = true) (hf : ¬ accepts w 0) :
    (rtgui_win_move x y w).win.SHOWN = false ∧
    (rtgui_win_move x y w).win.extent
      = rtgui_rect_move w.win.extent (x - (move_ref w.win).x1) (y - (move_ref w.win).y1) ∧
    (rtgui_win_move x y w).win.outer_extent
      = rtgui_rect_move w.win.outer_extent (x - (move_ref w.win).x1)
          (y - (move_ref w.win).y1) ∧
    (rtgui_win_move x y w).win._title.map (fun t => t.extent)
      = w.win._title.map (fun t =>
          rtgui_rect_move t.extent (x - (move_ref w.win).x1) (y - (move_ref w.win).y1)) := by
  obtain ⟨he, ho, ht⟩ := rtgui_win_move_geometry x y w
  refine ⟨?_, he, ho, ?_⟩
  · rw [rtgui_win_move_shown x y w hc]
    simp [hf]
  · rw [ht]; cases w.win._title <;> rfl

/-- Witness of C12 (amended): the rejected move of `rejecting_world`. -/
theorem C12_failed_move_keeps_changes_witness :
    rejecting_world.win.flag.CONNECTED = true ∧ ¬ accepts rejecting_world 0 ∧
    (rtgui_win_move 30 40 rejecting_world).win.SHOWN = false ∧
    (rtgui_win_move 30 40 rejecting_world).win.extent
      = rtgui_rect_move rejecting_world.win.extent (30 - (move_ref rejecting_world.win).x1)
          (40 - (move_ref rejecting_world.win).y1) ∧
    (rtgui_win_move 30 40 rejecting_world).win.outer_extent
      = rtgui_rect_move rejecting_world.win.outer_extent
          (30 - (move_ref rejecting_world.win).x1) (40 - (move_ref rejecting_world.win).y1) ∧
    (rtgui_win_move 30 40 rejecting_world).win._title.map (fun t => t.extent)
      = rejecting_world.win._title.map (fun t =>
          rtgui_rect_move t.extent (30 - (move_ref rejecting_world.win).x1)
            (40 - (move_ref rejecting_world.win).y1)) :=
  ⟨by decide, by decide,
    C12_failed_move_keeps_changes 30 40 rejecting_world (by decide) (by decide)⟩

/-- C13: regions read as point sets.  For every window that is not CLOSED,
after `rtgui_win_update_clip`: if the window has a title decoration, the
window's clip is `outer_clip` intersected with the content extent, the title's
clip is `outer_clip` minus the content extent, hence the window's clip is
`outer_clip` minus the title's clip, the two clips are disjoint and their
union is `outer_clip`; if the window has no title decoration, its clip is
`outer_clip`. -/
theorem C13_update_clip_partition (w : World) (h : w.win.flag.CLOSED = false) :
    (∀ t, w.win._title = some t →
      ∃ t1, (rtgui_win_update_clip w).win._title = some t1 ∧
        ∀ x y : Int,
          region_contains (rtgui_win_update_clip w).win.clip x y
            = (region_contains (rtgui_win_update_clip w).win.outer_clip x y
                && rect_contains (rtgui_win_update_clip w).win.extent x y) ∧
          region_contains t1.clip x y
            = (region_contains (rtgui_win_update_clip w).win.outer_clip x y
                && !rect_contains (rtgui_win_update_clip w).win.extent x y) ∧
          region_contains (rtgui_win_update_clip w).win.clip x y
            = (region_contains (rtgui_win_update_clip w).win.outer_clip x y
                && !region_contains t1.clip x y) ∧
          (region_contains (rtgui_win_update_clip w).win.clip x y
              && region_contains t1.clip x y) = false ∧
          (region_contains (rtgui_win_update_clip w).win.clip x y
              || region_contains t1.clip x y)
            = region_contains (rtgui_win_update_clip w).win.outer_clip x y) ∧
    (w.win._title = none →
      (rtgui_win_update_clip w).win._title = none ∧
      (rtgui_win_update_clip w).win.clip = (rtgui_win_update_clip w).win.outer_clip) ∧
    (rtgui_win_update_clip w).win.outer_clip = w.win.outer_clip := by
  refine ⟨?_, ?_, ?_⟩
  · intro t ht
    obtain ⟨h1, h2, h3, h4⟩ := rtgui_win_update_clip_title w t h ht
    refine ⟨_, h1, ?_⟩
    intro x y
    rw [h2, h3, h4]
    simp only [region_contains_intersect_rect, region_contains_subtract_rect]
    cases region_contains w.win.outer_clip x y <;> cases rect_contains w.win.extent x y <;>
      simp
  · intro ht
    obtain ⟨h1, h2, h3, _⟩ := rtgui_win_update_clip_plain w h ht
    exact ⟨h1, by rw [h2, h3]⟩
  · cases ht : w.win._title with
    | none => exact (rtgui_win_update_clip_plain w h ht).2.2.1
    | some t => exact (rtgui_win_update_clip_title w t h ht).2.2.1

/-- Witness of C13: the shown window with border and title of `titled_world`. -/
theorem C13_update_clip_partition_witness :
    titled_world.win.flag.CLOSED = false ∧
    ((∀ t, titled_world.win._title = some t →
      ∃ t1, (rtgui_win_update_clip titled_world).win._title = some t1 ∧
        ∀ x y : Int,
          region_contains (rtgui_win_update_clip titled_world).win.clip x y
            = (region_contains (rtgui_win_update_clip titled_world).win.outer_clip x y
                && rect_contains (rtgui_win_update_clip titled_world).win.extent x y) ∧
          region_contains t1.clip x y
            = (region_contains (rtgui_win_update_clip titled_world).win.outer_clip x y
                && !rect_contains (rtgui_win_update_clip titled_world).win.extent x y) ∧
          region_contains (rtgui_win_update_clip titled_world).win.clip x y
            = (region_contains (rtgui_win_update_clip titled_world).win.outer_clip x y
                && !region_contains t1.clip x y) ∧
          (region_contains (rtgui_win_update_clip titled_world).win.clip x y
              && region_contains t1.clip x y) = false ∧
          (region_contains (rtgui_win_update_clip titled_world).win.clip x y
              || region_contains t1.clip x y)
            = region_contains (rtgui_win_update_clip titled_world).win.outer_clip x y) ∧
    (titled_world.win._title = none →
      (rtgui_win_update_clip titled_world).win._title = none ∧
      (rtgui_win_update_clip titled_world).win.clip
        = (rtgui_win_update_clip titled_world).win.outer_clip) ∧
    (rtgui_win_update_clip titled_world).win.outer_clip = titled_world.win.outer_clip) :=
  ⟨by decide, C13_update_clip_partition titled_world (by decide)⟩

/-- C14 (counterexample): a CLOSED window whose `outer_clip` the server has
emptied.  `rtgui_win_update_clip` returns at once, so the point (10, 10) is
still in the window's clip and not in its `outer_clip`. -/
theorem C14_closed_window_keeps_stale_clip :
    stale_world.win.flag.CLOSED = true ∧
    region_contains (rtgui_win_update_clip stale_world).win.clip 10 10 = true ∧
    region_contains (rtgui_win_update_clip stale_world).win.outer_clip 10 10 = false := by
  decide

/-- C14 (amended): after `rtgui_win_update_clip`, for every window that is not
CLOSED (with or without title decoration, whatever its clip held before),
every point of the window's clip lies in its `outer_clip`. -/
theorem C14_clip_within_outer_clip (w : World) (h : w.win.flag.CLOSED = false) (x y : Int) :
    region_contains (rtgui_win_update_clip w).win.clip x y = true →
      region_contains (rtgui_win_update_clip w).win.outer_clip x y = true := by
  cases ht : w.win._title with
  | none =>
    obtain ⟨_, h2, h3, _⟩ := rtgui_win_update_clip_plain w h ht
    rw [h2, h3]
    exact id
  | some t =>
    obtain ⟨_, h2, h3, _⟩ := rtgui_win_update_clip_title w t h ht
    rw [h2, h3, region_contains_intersect_rect]
    intro hp
    simp only [Bool.and_eq_true] at hp
    exact hp.1

/-- Witness of C14 (amended): the window of `titled_world` and the point
(10, 10) of its clip. -/
theorem C14_clip_within_outer_clip_witness :
    titled_world.win.flag.CLOSED = false ∧
    region_contains (rtgui_win_update_clip titled_world).win.clip 10 10 = true ∧
    region_contains (rtgui_win_update_clip titled_world).win.outer_clip 10 10 = true :=
  ⟨by decide, by decide,
    C14_clip_within_outer_clip titled_world (by decide) 10 10 (by decide)⟩

/-- C15: for every content rectangle `r` and style, `rtgui_win_init` with a
title creation that succeeds leaves `outer_extent` equal to `r` moved outwards
by `TITLE_BORDER_SIZE` on all four sides when the style has a border, its top
edge `y1` lowered by `TITLE_HEIGHT` more when the style has a title;
`outer_clip` is the single rectangle `outer_extent` and the content extent is
`r`.  With both NO_BORDER and NO_TITLE `outer_extent = r` and no title
decoration is created; otherwise a title decoration with extent
`outer_extent` is created. -/
theorem C15_init_geometry (bits : Nat) (border height : Int) (parent : Option Nat)
    (r : rtgui_rect) (style : win_style) (w : World) :
    (rtgui_win_init bits border height parent true r style w).2.win.outer_extent
      = { x1 := r.x1 - (if style.NO_BORDER then 0 else border),
          y1 := r.y1 - (if style.NO_BORDER then 0 else border)
                  - (if style.NO_TITLE then 0 else height),
          x2 := r.x2 + (if style.NO_BORDER then 0 else border),
          y2 := r.y2 + (if style.NO_BORDER then 0 else border) } ∧
    (rtgui_win_init bits border height parent true r style w).2.win.outer_clip
      = rtgui_region_init_with_extents
          (rtgui_win_init bits border height parent true r style w).2.win.outer_extent ∧
    (rtgui_win_init bits border height parent true r style w).2.win.extent = r ∧
    (style.NO_BORDER = true ∧ style.NO_TITLE = true →
      (rtgui_win_init bits border height parent true r style w).2.win.outer_extent = r ∧
      (rtgui_win_init bits border height parent true r style w).2.win._title
        = w.win._title) ∧
    (¬ (style.NO_BORDER = true ∧ style.NO_TITLE = true) →
      ∃ t, (rtgui_win_init bits border height parent true r style w).2.win._title = some t ∧
        t.extent
          = (rtgui_win_init bits border height parent true r style w).2.win.outer_extent) := by
  obtain ⟨h1, h2, h3, h4⟩ := rtgui_win_init_geometry bits border height parent r style w
  rw [h1, h2, h3, h4]
  cases hb : style.NO_BORDER <;> cases ht : style.NO_TITLE <;>
    simp [rtgui_rect_inflate, sub_eq_add_neg]

/-- The scenario of C15: content rectangle (10,10)-(110,60), border 1, title
height 20, style with border and title. -/
theorem rtgui_win_init_sample :
    init_world.win.outer_extent = { x1 := 9, y1 := -11, x2 := 111, y2 := 61 } ∧
    init_world.win.outer_clip
      = { extents := { x1 := 9, y1 := -11, x2 := 111, y2 := 61 }, data := none } ∧
    init_world.win.extent = { x1 := 10, y1 := 10, x2 := 110, y2 := 60 } ∧
    init_world.win._title.map (fun t => t.extent)
      = some { x1 := 9, y1 := -11, x2 := 111, y2 := 61 } := by
  decide

/-- C16: a window that has the IN_MODAL flag ignores a WIN_ACTIVATE event: the
handler returns with the window, the application and the trace of outgoing
calls unchanged, so ACTIVATE and all other flags keep their values, no update
of the title decoration is requested and `on_activate` is not called. -/
theorem C16_activate_ignored_in_modal (bits : Nat) (run : World → Option (Int × World))
    (w : World) (h : w.win.flag.IN_MODAL = true) :
    _win_event_handler bits run rtgui_evt.WIN_ACTIVATE w = some (true, w) :=
  _win_event_handler_activate_ignored bits run w (Or.inl h)

/-- Witness of C16: the shown window of `titled_world` (title decoration and
`on_activate` installed) inside a modal scope. -/
theorem C16_activate_ignored_in_modal_witness :
    ({ titled_world with win.flag.IN_MODAL := true } : World).win.flag.IN_MODAL = true ∧
    _win_event_handler 16 idle_run rtgui_evt.WIN_ACTIVATE
        { titled_world with win.flag.IN_MODAL := true }
      = some (true, { titled_world with win.flag.IN_MODAL := true }) :=
  ⟨rfl, C16_activate_ignored_in_modal 16 idle_run
    { titled_world with win.flag.IN_MODAL := true } rfl⟩

/-- C17 (counterexample): the window of `closed_world` has the CLOSED flag and
an `on_deactivate` callback; handling WIN_DEACTIVATE requests an update of its
title decoration and calls `on_deactivate`. -/
theorem C17_closed_window_deactivated :
    closed_world.win.flag.CLOSED = true ∧
    (_win_event_handler 16 idle_run rtgui_evt.WIN_DEACTIVATE closed_world).map
        (fun r => r.2.log)
      = some (closed_world.log ++ [Effect.update_title, Effect.on_deactivate]) := by
  decide

/-- C17 (amended): a window that has the CLOSED flag and is not SHOWN ignores a
WIN_ACTIVATE event (nothing changes, no callback is called); a WIN_DEACTIVATE
event is handled as for any window: ACTIVATE is cleared, an update of the
title decoration is requested if there is one, `on_deactivate` is called if
installed and `on_activate` is not called. -/
theorem C17_closed_hidden_window (bits : Nat) (run : World → Option (Int × World))
    (w : World) (_hc : w.win.flag.CLOSED = true) (hs : w.win.SHOWN = false) :
    _win_event_handler bits run rtgui_evt.WIN_ACTIVATE w = some (true, w) ∧
    _win_event_handler bits run rtgui_evt.WIN_DEACTIVATE w
      = some (true,
          { w with
            win.flag.ACTIVATE := false,
            log := w.log ++ (if w.win._title.isSome then [Effect.update_title] else [])
                     ++ (if w.win.on_deactivate then [Effect.on_deactivate] else []) }) :=
  ⟨_win_event_handler_activate_ignored bits run w (Or.inr hs),
    _win_event_handler_deactivate bits run w⟩

/-- Witness of C17 (amended): the closed, hidden window of `closed_world`. -/
theorem C17_closed_hidden_window_witness :
    closed_world.win.flag.CLOSED = true ∧ closed_world.win.SHOWN = false ∧
    _win_event_handler 16 idle_run rtgui_evt.WIN_ACTIVATE closed_world
      = some (true, closed_world) ∧
    _win_event_handler 16 idle_run rtgui_evt.WIN_DEACTIVATE closed_world
      = some (true,
          { closed_world with
            win.flag.ACTIVATE := false,
            log := closed_world.log
                     ++ (if closed_world.win._title.isSome then [Effect.update_title] else [])
                     ++ (if closed_world.win.on_deactivate then [Effect.on_deactivate]
                         else []) }) :=
  ⟨by decide, by decide,
    C17_closed_hidden_window 16 idle_run closed_world (by decide) (by decide)⟩

/-- C18 (counterexample): the shown window of `titled_world` has a title
decoration; handling WIN_DEACTIVATE requests an update of that decoration
(before it calls `on_deactivate`). -/
theorem C18_deactivate_updates_title :
    (_win_event_handler 16 idle_run rtgui_evt.WIN_DEACTIVATE titled_world).map
        (fun r => (r.2.win.flag.ACTIVATE, r.2.log))
      = some (false, titled_world.log ++ [Effect.update_title, Effect.on_deactivate]) := by
  decide

/-- C18 (amended): for every window (shown or hidden, inside a modal scope or
not), handling WIN_DEACTIVATE clears ACTIVATE and requests an update of the
title decoration, and of nothing else, when the window has one; handling an
accepted WIN_ACTIVATE (window SHOWN and not IN_MODAL) sets ACTIVATE and
likewise requests an update of the title decoration only.  Beside the update
request only the installed callback of the event is called. -/
theorem C18_activation_updates_title_only (bits : Nat)
    (run : World → Option (Int × World)) (w : World) :
    _win_event_handler bits run rtgui_evt.WIN_DEACTIVATE w
      = some (true,
          { w with
            win.flag.ACTIVATE := false,
            log := w.log ++ (if w.win._title.isSome then [Effect.update_title] else [])
                     ++ (if w.win.on_deactivate then [Effect.on_deactivate] else []) }) ∧
    (w.win.flag.IN_MODAL = false → w.win.SHOWN = true →
      _win_event_handler bits run rtgui_evt.WIN_ACTIVATE w
        = some (true,
            { w with
              win.flag.ACTIVATE := true,
              log := w.log ++ (if w.win._title.isSome then [Effect.update_title] else [])
                       ++ (if w.win.on_activate then [Effect.on_activate] else []) })) :=
  ⟨_win_event_handler_deactivate bits run w,
    fun hm hs => _win_event_handler_activate bits run w hm hs⟩

/-- Witness of C18 (amended): the shown window of `titled_world`. -/
theorem C18_activation_updates_title_only_witness :
    titled_world.win.flag.IN_MODAL = false ∧ titled_world.win.SHOWN = true ∧
    _win_event_handler 16 idle_run rtgui_evt.WIN_DEACTIVATE titled_world
      = some (true,
          { titled_world with
            win.flag.ACTIVATE := false,
            log := titled_world.log
                     ++ (if titled_world.win._title.isSome then [Effect.update_title] else [])
                     ++ (if titled_world.win.on_deactivate then [Effect.on_deactivate]
                         else []) }) ∧
    _win_event_handler 16 idle_run rtgui_evt.WIN_ACTIVATE titled_world
      = some (true,
          { titled_world with
            win.flag.ACTIVATE := true,
            log := titled_world.log
                     ++ (if titled_world.win._title.isSome then [Effect.update_title] else [])
                     ++ (if titled_world.win.on_activate then [Effect.on_activate]
                         else []) }) :=
  ⟨by decide, by decide, (C18_activation_updates_title_only 16 idle_run titled_world).1,
    (C18_activation_updates_title_only 16 idle_run titled_world).2 (by decide) (by decide)⟩

/-- C19: clipped horizontal line.  With `lo <= hi` the device-space endpoints
of the request `(x1, x2, y)` (either order) and `y'` the device row,
`rtgui_dc_client_draw_hline` on a visible owner makes, for the rectangles `R`
of the owner's clip in order (the one rectangle `extents` of a flat clip, else
the rectangle list), exactly the calls of `hline_spec`: a `draw_hline` for `R`
only when `R.y1 <= y' < R.y2` and the span meets `R` (`lo < R.x2` and
`R.x1 <= hi`), with the span from `max lo R.x1` to `min hi R.x2`.  For a
well-formed `R` (`x1 <= x2`) that span starts no later than it ends and lies
inside the requested span and the horizontal range of `R`.  An invisible owner
gets no call, and exchanging the endpoints of the request gives the same
calls. -/
theorem C19_hline_clipped (owner : rtgui_widget_t) (x1 x2 y : Int) :
    rtgui_dc_client_draw_hline (some owner) x1 x2 y
      = (if owner.visible then
          (region_rects owner.clip).filterMap
            (hline_spec owner.foreground (min x1 x2 + owner.extent.x1)
              (max x1 x2 + owner.extent.x1) (y + owner.extent.y1))
         else []) ∧
    (∀ c ∈ rtgui_dc_client_draw_hline (some owner) x1 x2 y,
      ∃ R ∈ region_rects owner.clip,
        R.y1 ≤ y + owner.extent.y1 ∧ y + owner.extent.y1 < R.y2 ∧
        min x1 x2 + owner.extent.x1 < R.x2 ∧ R.x1 ≤ max x1 x2 + owner.extent.x1 ∧
        c = driver_call.draw_hline owner.foreground
              (max (min x1 x2 + owner.extent.x1) R.x1)
              (min (max x1 x2 + owner.extent.x1) R.x2) (y + owner.extent.y1) ∧
        (R.x1 ≤ R.x2 →
          max (min x1 x2 + owner.extent.x1) R.x1 ≤ min (max x1 x2 + owner.extent.x1) R.x2 ∧
          min x1 x2 + owner.extent.x1 ≤ max (min x1 x2 + owner.extent.x1) R.x1 ∧
          min (max x1 x2 + owner.extent.x1) R.x2 ≤ max x1 x2 + owner.extent.x1 ∧
          R.x1 ≤ max (min x1 x2 + owner.extent.x1) R.x1 ∧
          min (max x1 x2 + owner.extent.x1) R.x2 ≤ R.x2)) ∧
    rtgui_dc_client_draw_hline (some owner) x2 x1 y
      = rtgui_dc_client_draw_hline (some owner) x1 x2 y := by
  refine ⟨rtgui_dc_client_draw_hline_eq owner x1 x2 y, ?_, ?_⟩
  · intro c hc
    rw [rtgui_dc_client_draw_hline_eq] at hc
    cases hv : owner.visible
    · simp [hv] at hc
    · simp only [hv, if_true, List.mem_filterMap] at hc
      obtain ⟨R, hR, hs⟩ := hc
      unfold hline_spec at hs
      split at hs
      · rename_i hcond
        obtain ⟨h1, h2, h3, h4⟩ := hcond
        refine ⟨R, hR, h1, h2, h3, h4, ?_, ?_⟩
        · exact (Option.some.inj hs).symm
        · intro hw
          have hlohi : min x1 x2 ≤ max x1 x2 := le_trans (min_le_left _ _) (le_max_left _ _)
          refine ⟨?_, le_max_left _ _, min_le_left _ _, le_max_right _ _, min_le_right _ _⟩
          apply max_le
          · exact le_min (by omega) (le_of_lt h3)
          · exact le_min h4 hw
      · exact absurd hs (by simp)
  · rw [rtgui_dc_client_draw_hline_eq, rtgui_dc_client_draw_hline_eq, min_comm x2 x1,
      max_comm x2 x1]

/-- The calls of C19 on a clip of two rectangles: the request from logical 0 to
40 on row 8 of `split_owner`, in both endpoint orders. -/
theorem rtgui_dc_client_draw_hline_sample :
    rtgui_dc_client_draw_hline (some split_owner) 0 40 8
      = [driver_call.draw_hline 3 10 20 13, driver_call.draw_hline 3 30 40 13] ∧
    rtgui_dc_client_draw_hline (some split_owner) 40 0 8
      = [driver_call.draw_hline 3 10 20 13, driver_call.draw_hline 3 30 40 13] := by
  decide

/-- C20 (the code at the failing inputs): with 2 bytes per pixel, a request
from logical -5 to 20 on row 0 of `sample_owner` (flat clip equal to the
extent) makes the flat branch pass `line_data + 0` where the loop branch on
the same rectangle passes `line_data + 10`; a request from 5 to 20 on
`covered_owner` (flat clip starting 10 pixels right of the extent) makes the
flat branch pass `line_data + 20` where the loop branch passes
`line_data + 10`.  The coordinates of the calls agree. -/
theorem C20_flat_blit_offset_differs :
    rtgui_region_is_flat sample_owner.clip = true ∧
    sample_owner.clip.extents = sample_owner.extent ∧
    rtgui_dc_client_blit_line 2 (some sample_owner) (-5) 20 0
      = [driver_call.draw_raw_hline 0 0 20 0] ∧
    blit_line_loop 2 (logic_to_device sample_owner (-5) 20 0).1
        (logic_to_device sample_owner (-5) 20 0).2.1
        (logic_to_device sample_owner (-5) 20 0).2.2 (region_rects sample_owner.clip)
      = [driver_call.draw_raw_hline 10 0 20 0] ∧
    rtgui_region_is_flat covered_owner.clip = true ∧
    rtgui_dc_client_blit_line 2 (some covered_owner) 5 20 0
      = [driver_call.draw_raw_hline 20 10 20 0] ∧
    blit_line_loop 2 (logic_to_device covered_owner 5 20 0).1
        (logic_to_device covered_owner 5 20 0).2.1
        (logic_to_device covered_owner 5 20 0).2.2 (region_rects covered_owner.clip)
      = [driver_call.draw_raw_hline 10 10 20 0] := by
  decide

/-- C21 (the code at the failing inputs): a window is initialised in an
application that has one other window (`win_cnt` 2 after `rtgui_win_init`).
Two WIN_CLOSE events, the second on the CLOSED window, lower `win_cnt` twice:
it is 0 and `rtgui_app_exit` is called although the other window is still
open; the same after close, `rtgui_win_show` and a second close.  For the only
window of an application (`init_world`, `win_cnt` 1) the second close wraps
the 16-bit counter to 65535. -/
theorem C21_win_cnt_lowered_twice :
    (second_world.app.win_cnt, second_world.win.flag.CLOSED) = (2, false) ∧
    (_win_event_handler 16 idle_run rtgui_evt.WIN_CLOSE second_world).map
        (fun r => (r.2.app.win_cnt, r.2.win.flag.CLOSED, exits r.2.log))
      = some (1, true, []) ∧
    ((_win_event_handler 16 idle_run rtgui_evt.WIN_CLOSE second_world).bind
        (fun r => _win_event_handler 16 idle_run rtgui_evt.WIN_CLOSE r.2)).map
        (fun r => (r.2.app.win_cnt, r.2.win.flag.CLOSED, exits r.2.log))
      = some (0, true, [0]) ∧
    (((_win_event_handler 16 idle_run rtgui_evt.WIN_CLOSE second_world).bind
        (fun r => rtgui_win_show 16 idle_run false r.2)).bind
        (fun r => _win_event_handler 16 idle_run rtgui_evt.WIN_CLOSE r.2)).map
        (fun r => (r.2.app.win_cnt, r.2.win.flag.CLOSED, exits r.2.log))
      = some (0, true, [0]) ∧
    init_world.app.win_cnt = 1 ∧
    ((_win_event_handler 16 idle_run rtgui_evt.WIN_CLOSE init_world).bind
        (fun r => _win_event_handler 16 idle_run rtgui_evt.WIN_CLOSE r.2)).map
        (fun r => r.2.app.win_cnt)
      = some 65535 := by
  decide

/-- C22 (the code at the failing inputs): the window of `titled_world` is
shown and has no `on_key` callback.  In key handling mode (HANDLE_KEY set) a
KBD event makes the handler call `win->on_key` through the null pointer (no
result); with HANDLE_KEY clear the dispatch reaches the focused widget, the
window itself, and ends in the same call.  With a callback installed (one that
returns false) the handler in key handling mode returns true and the trace of
calls is unchanged: `on_key` was not called. -/
theorem C22_kbd_calls_null_on_key :
    titled_world.win.on_key = none ∧
    (_win_kbd_handle_key { titled_world with win.flag.HANDLE_KEY := true }).isNone = true ∧
    (_win_event_handler 16 idle_run rtgui_evt.KBD
        { titled_world with win.flag.HANDLE_KEY := true }).isNone = true ∧
    (titled_world.win.flag.HANDLE_KEY, key_chain titled_world.win)
      = (false, [key_target.window]) ∧
    (_win_event_handler 16 idle_run rtgui_evt.KBD titled_world).isNone = true ∧
    (_win_event_handler 16 idle_run rtgui_evt.KBD
        { titled_world with win.flag.HANDLE_KEY := true, win.on_key := some false }).map
        (fun r => (r.1, r.2.log))
      = some (true, titled_world.log) := by
  decide

/-- C23 (counterexample): the shown, connected window without title decoration
of `shown_world`, with `outer_extent` (10,10)-(110,60).  After
`rtgui_win_set_rect` to (0,0)-(50,50) the content extent is that rectangle;
after the following `rtgui_win_update_clip` it is (10,10)-(110,60) again. -/
theorem C23_update_clip_undoes_set_rect :
    ((shown_world (fun _ => 0)).win.flag.CONNECTED, (shown_world (fun _ => 0)).win.flag.CLOSED,
        (shown_world (fun _ => 0)).win._title, (shown_world (fun _ => 0)).win.outer_extent)
      = (true, false, none, { x1 := 10, y1 := 10, x2 := 110, y2 := 60 }) ∧
    (rtgui_win_set_rect { x1 := 0, y1 := 0, x2 := 50, y2 := 50 }
        (shown_world (fun _ => 0))).win.extent
      = { x1 := 0, y1 := 0, x2 := 50, y2 := 50 } ∧
    (rtgui_win_update_clip
        (rtgui_win_set_rect { x1 := 0, y1 := 0, x2 := 50, y2 := 50 }
          (shown_world (fun _ => 0)))).win.extent
      = { x1 := 10, y1 := 10, x2 := 110, y2 := 60 } := by
  decide

/-- C23 (amended): for every window that is not CLOSED and has no title
decoration (CONNECTED or not) and every rectangle `r`, after
`rtgui_win_set_rect(win, r)` followed by `rtgui_win_update_clip(win)` the
content extent equals the window's `outer_extent`, which neither function
changes; so it equals `r` exactly when `outer_extent` is `r`. -/
theorem C23_update_clip_restores_outer_extent (r : rtgui_rect) (w : World)
    (hcl : w.win.flag.CLOSED = false) (ht : w.win._title = none) :
    (rtgui_win_update_clip (rtgui_win_set_rect r w)).win.extent = w.win.outer_extent ∧
    (rtgui_win_update_clip (rtgui_win_set_rect r w)).win.outer_extent = w.win.outer_extent ∧
    ((rtgui_win_update_clip (rtgui_win_set_rect r w)).win.extent = r ↔
      w.win.outer_extent = r) := by
  obtain ⟨h1, h2, h3, h4⟩ := rtgui_win_set_rect_frame r w
  obtain ⟨_, _, _, he⟩ :=
    rtgui_win_update_clip_plain (rtgui_win_set_rect r w) (by rw [h2]; exact hcl)
      (by rw [h3]; exact ht)
  have ho : (rtgui_win_update_clip (rtgui_win_set_rect r w)).win.outer_extent
      = w.win.outer_extent := by
    rw [rtgui_win_update_clip_outer_extent, h4]
  refine ⟨by rw [he, h4], ho, ?_⟩
  rw [he, h4]

/-- Witness of C23 (amended): the window of `shown_world` and the rectangle
(0,0)-(50,50). -/
theorem C23_update_clip_restores_outer_extent_witness :
    (shown_world (fun _ => 0)).win.flag.CLOSED = false ∧
    (shown_world (fun _ => 0)).win._title = none ∧
    (rtgui_win_update_clip
        (rtgui_win_set_rect { x1 := 0, y1 := 0, x2 := 50, y2 := 50 }
          (shown_world (fun _ => 0)))).win.extent
      = (shown_world (fun _ => 0)).win.outer_extent ∧
    (rtgui_win_update_clip
        (rtgui_win_set_rect { x1 := 0, y1 := 0, x2 := 50, y2 := 50 }
          (shown_world (fun _ => 0)))).win.outer_extent
      = (shown_world (fun _ => 0)).win.outer_extent ∧
    ((rtgui_win_update_clip
        (rtgui_win_set_rect { x1 := 0, y1 := 0, x2 := 50, y2 := 50 }
          (shown_world (fun _ => 0)))).win.extent
        = { x1 := 0, y1 := 0, x2 := 50, y2 := 50 } ↔
      (shown_world (fun _ => 0)).win.outer_extent
        = { x1 := 0, y1 := 0, x2 := 50, y2 := 50 }) :=
  ⟨by decide, by decide,
    C23_update_clip_restores_outer_extent { x1 := 0, y1 := 0, x2 := 50, y2 := 50 }
      (shown_world (fun _ => 0)) (by decide) (by decide)⟩

set_option maxRecDepth 4000 in
/-- C24 (the code at the failing inputs): the title of an activated window on
a bar of width 100 (`delta = 2400 / 100 = 24`).  The loop draws 101 columns;
the accumulator `b` is 1696 + 100 * 24 = 4096 at the last one, whose blue
channel argument is 4096 >> 4 = 256.  On a bar of width 1 the second of the
two columns has blue 256. -/
theorem C24_title_gradient_blue_256 :
    (rtgui_theme_draw_win_gradient true title_rect).map
        (fun l => (l.length, l.head?, l.getLast?))
      = some (101, some { index := 0, red := 10, green := 36, blue := 106 },
          some { index := 100, red := 160, green := 186, blue := 256 }) ∧
    rtgui_theme_draw_win_gradient true { x1 := 0, y1 := 0, x2 := 1, y2 := 20 }
      = some [{ index := 0, red := 10, green := 36, blue := 106 },
              { index := 1, red := 160, green := 186, blue := 256 }] := by
  decide

end RTGUI
